import Mathlib

/-!
Verification of the Nerevar backend core (`src-tauri/src/lib.rs.backup`):
shallow embedding of its text-config codec, settings-script codec, archive
installer's folder locator, application config store, and process supervisor,
together with theorems settling the specification claims.

Modelling conventions:
* Rust `&str`/`String` values are Lean `String`s (a wrapper around
  `List Char`); all inputs in play are ASCII, so Rust byte indices coincide
  with character indices and Rust's Unicode `trim` coincides with ASCII
  whitespace trimming.
* Rust `f64` values are modelled as exact decimal fractions (`F64` below:
  an integer mantissa with a power-of-ten denominator, canonicalized by
  stripping trailing zeros).  The source only parses and reprints such
  decimals; it performs no float arithmetic.
* Fallible Rust functions returning `Result<T, String>` become
  `Except String T`.
* Filesystem and process effects are modelled by explicit state passing
  (the affected file's content, a directory listing, a spawn/wait outcome).
-/

namespace Nerevar

/-! ### String primitives (Rust `str` operations on ASCII text) -/

def isWsChar (c : Char) : Bool :=
  c = ' ' || c = '\t' || c = '\n' || c = '\r'

def trimL (l : List Char) : List Char :=
  ((l.dropWhile isWsChar).reverse.dropWhile isWsChar).reverse

/-- Rust `str::trim` (ASCII whitespace). -/
def rsTrim (s : String) : String := String.mk (trimL s.data)

/-- Stack-safe list reversal: `List.rec` with a function-valued motive
reduces iteratively in the kernel even on very long lists. -/
def revGo {α : Type} (l : List α) : List α → List α :=
  List.rec (motive := fun _ => List α → List α)
    (fun acc => acc) (fun x _ r => fun acc => r (x :: acc)) l

def revTR {α : Type} (l : List α) : List α := revGo l []

/-- Stack-safe splitter on a separator character; `cur` is the current piece
(reversed), `acc` the finished pieces (reversed).  Same semantics as Rust
`str::split(c)`: `n` separators yield `n+1` pieces. -/
def splitSepGo (c : Char) (l : List Char) :
    List Char → List (List Char) → List (List Char) :=
  List.rec (motive := fun _ => List Char → List (List Char) → List (List Char))
    (fun cur acc => revTR (revTR cur :: acc))
    (fun x _ r => fun cur acc =>
      if x = c then r [] (revTR cur :: acc) else r (x :: cur) acc)
    l

def splitSepL (c : Char) (l : List Char) : List (List Char) := splitSepGo c l [] []

/-- Rust `str::split(c)` producing strings. -/
def rsSplit (c : Char) (s : String) : List String :=
  (splitSepL c s.data).map String.mk

/-- Stack-safe last element. -/
def lastGo (l : List Char) : Option Char → Option Char :=
  List.rec (motive := fun _ => Option Char → Option Char)
    (fun acc => acc) (fun x _ r => fun _ => r (some x)) l

def lastCharOf (l : List Char) : Option Char := lastGo l none

/-- Strip a single trailing carriage return (Rust `lines` does this per line). -/
def dropTrailCR (l : List Char) : List Char :=
  match revTR l with
  | '\r' :: rest => revTR rest
  | _ => l

/-- Rust `str::lines`: split on `'\n'`, no trailing empty line, strip one
trailing `'\r'` from each line. -/
def rsLines (s : String) : List String :=
  match s.data with
  | [] => []
  | _ :: _ =>
    let parts := splitSepL '\n' s.data
    let parts := if lastCharOf s.data = some '\n' then parts.dropLast else parts
    parts.map (fun l => String.mk (dropTrailCR l))

/-- Rust `str::starts_with` (string pattern). -/
def strHasPre (s p : String) : Bool := p.data.isPrefixOf s.data

/-- Rust `str::ends_with` (string pattern). -/
def strHasSuf (s p : String) : Bool := p.data.isSuffixOf s.data

def strLength (s : String) : Nat := s.data.length

/-- Rust slice `s[a..b]` (ASCII, so byte = char indices). -/
def strSlice (s : String) (a b : Nat) : String := String.mk ((s.data.take b).drop a)

/-- Rust slice `s[..n]`. -/
def strTake (s : String) (n : Nat) : String := String.mk (s.data.take n)

/-- Rust slice `s[n..]`. -/
def strDrop (s : String) (n : Nat) : String := String.mk (s.data.drop n)

def idxGo (c : Char) : List Char → Nat → Option Nat
| [], _ => none
| x :: xs, i => if x = c then some i else idxGo c xs (i + 1)

/-- Rust `str::find(c)`: index of the first occurrence. -/
def idxOfC (c : Char) (s : String) : Option Nat := idxGo c s.data 0

/-- Rust `str::contains(c)`. -/
def hasChar (s : String) (c : Char) : Bool := s.data.any (fun x => x = c)

/-- Rust `Vec::join(sep)` / `slice::join`. -/
def joinWith (sep : String) : List String → String
| [] => ""
| [x] => x
| x :: y :: rest => x ++ sep ++ joinWith sep (y :: rest)

/-- Lowercase an ASCII character (model of Rust `char::to_lowercase` on the
ASCII folder names in play). -/
def lowerChar (c : Char) : Char :=
  if 65 ≤ c.toNat && c.toNat ≤ 90 then Char.ofNat (c.toNat + 32) else c

/-- Model of Rust `str::to_lowercase` on ASCII text. -/
def lowerStr (s : String) : String := String.mk (s.data.map lowerChar)

/-- An apostrophe, kept out of string literals. -/
def sq : String := String.mk [Char.ofNat 39]

/-- A double-quote character. -/
def dqChar : Char := Char.ofNat 34

/-- A double-quote as a string. -/
def dqs : String := String.mk [dqChar]

/-- An opening brace as a string. -/
def obrS : String := String.mk [Char.ofNat 123]

/-- A closing brace as a string. -/
def cbrS : String := String.mk [Char.ofNat 125]

/-! ### Number formatting and parsing (Rust `Display` / `FromStr`) -/

def fmtNatGo : Nat → Nat → List Char → List Char
| 0, _, acc => acc
| fuel + 1, n, acc =>
  let acc' := Char.ofNat (48 + n % 10) :: acc
  if n < 10 then acc' else fmtNatGo fuel (n / 10) acc'

/-- Decimal rendering of a natural number (Rust `Display` for unsigned ints). -/
def fmtNat (n : Nat) : String := String.mk (fmtNatGo (n + 1) n [])

/-- Decimal rendering of an integer (Rust `Display` for signed ints). -/
def fmtInt (i : Int) : String :=
  if i < 0 then "-" ++ fmtNat i.natAbs else fmtNat i.natAbs

/-- Rust `Display` for `bool`. -/
def fmtBool (b : Bool) : String := if b then "true" else "false"

def digitVal (c : Char) : Option Nat :=
  if 48 ≤ c.toNat && c.toNat ≤ 57 then some (c.toNat - 48) else none

def digitsValGo : List Char → Nat → Option Nat
| [], acc => some acc
| c :: cs, acc =>
  match digitVal c with
  | none => none
  | some d => digitsValGo cs (acc * 10 + d)

/-- Value of a nonempty all-digit string, `none` otherwise. -/
def digitsVal : List Char → Option Nat
| [] => none
| l => digitsValGo l 0

/-- Rust `<i32 as FromStr>::from_str`, with the `ParseIntError` display
texts used by the source's error messages. -/
def rsParseI32 (s : String) : Except String Int :=
  match s.data with
  | [] => .error "cannot parse integer from empty string"
  | c :: rest =>
    let neg : Bool := c = '-'
    let ds : List Char := if c = '-' || c = '+' then rest else c :: rest
    match digitsVal ds with
    | none => .error "invalid digit found in string"
    | some n =>
      if neg then
        if n ≤ 2147483648 then .ok (-(n : Int))
        else .error "number too small to fit in target type"
      else
        if n ≤ 2147483647 then .ok (n : Int)
        else .error "number too large to fit in target type"

/-- Rust `s.parse::<uN>().ok()` for an unsigned type with maximum `max`
(accepts an optional leading `+`). -/
def rsParseNatMax (max : Nat) (s : String) : Option Nat :=
  match s.data with
  | [] => none
  | c :: rest =>
    let ds : List Char := if c = '+' then rest else c :: rest
    match digitsVal ds with
    | none => none
    | some n => if n ≤ max then some n else none

/-- Rust `s.parse::<bool>().ok()`. -/
def rsParseBool (s : String) : Option Bool :=
  if s = "true" then some true else if s = "false" then some false else none

/-! ### Exact-decimal model of `f64` values

The backend only parses decimal literals and reprints them; `F64` keeps the
exact decimal fraction `num / 10 ^ exp`, canonicalized so that the fraction
has no trailing zero digits (hence integers print without a decimal point,
matching Rust's shortest `Display` on the decimal values in play). -/

structure F64 where
  num : Int
  exp : Nat
deriving DecidableEq

def stripZerosGo : Nat → Int → Nat → F64
| 0, m, e => ⟨m, e⟩
| fuel + 1, m, e =>
  if e = 0 then ⟨m, e⟩
  else if m % 10 = 0 then stripZerosGo fuel (m / 10) (e - 1)
  else ⟨m, e⟩

/-- The value `m / 10 ^ e` in canonical form. -/
def mkF64 (m : Int) (e : Nat) : F64 := stripZerosGo e m e

def padZeros (width : Nat) (n : Nat) : String :=
  let d := fmtNat n
  String.mk (List.replicate (width - d.data.length) '0') ++ d

/-- Rust `Display` for the `f64` values in play (exact decimals). -/
def fmtF64 (q : F64) : String :=
  if q.exp = 0 then fmtInt q.num
  else
    let sign := if q.num < 0 then "-" else ""
    let a := q.num.natAbs
    let p := 10 ^ q.exp
    sign ++ fmtNat (a / p) ++ "." ++ padZeros q.exp (a % p)

def isSignChar (c : Char) : Bool := c = '+' || c = '-'

def allDigits (l : List Char) : Bool := l.all (fun c => (digitVal c).isSome)

/-- The exponent part of a float literal: `Sign? Digits`. -/
def parseExpPart (l : List Char) : Option Int :=
  match l with
  | [] => none
  | c :: rest =>
    let neg : Bool := c = '-'
    let ds := if isSignChar c then rest else c :: rest
    match digitsVal ds with
    | none => none
    | some n => some (if neg then -(n : Int) else (n : Int))

/-- Mantissa of a float literal: `Digits | Digits . Digits? | Digits? . Digits`,
returned as (unsigned mantissa digits value, number of fraction digits). -/
def parseMantissa (l : List Char) : Option (Nat × Nat) :=
  match splitSepL '.' l with
  | [intPart] =>
    match digitsVal intPart with
    | some n => some (n, 0)
    | none => none
  | [intPart, fracPart] =>
    if intPart = [] && fracPart = [] then none
    else if allDigits intPart && allDigits fracPart then
      match digitsValGo (intPart ++ fracPart) 0 with
      | some n => some (n, fracPart.length)
      | none => none
    else none
  | _ => none

/-- Rust `<f64 as FromStr>::from_str` on the decimal grammar
`Sign? (inf | infinity | nan | Digits | Digits . Digits? | Digits? . Digits)
(e|E Sign? Digits)?`.  IEEE specials are accepted but collapsed to `0`
(they are never produced by the programs under verification). -/
def rsParseF64 (s : String) : Option F64 :=
  match s.data with
  | [] => none
  | c :: rest =>
    let neg : Bool := c = '-'
    let body := if isSignChar c then rest else c :: rest
    let low := lowerStr (String.mk body)
    if low = "inf" || low = "infinity" || low = "nan" then some (mkF64 0 0)
    else
      match splitSepL 'e' (body.map (fun ch => if ch = 'E' then 'e' else ch)) with
      | [mant] =>
        match parseMantissa mant with
        | some (m, f) =>
          some (mkF64 (if neg then -(m : Int) else (m : Int)) f)
        | none => none
      | [mant, expPart] =>
        match parseMantissa mant, parseExpPart expPart with
        | some (m, f), some e =>
          let sm : Int := if neg then -(m : Int) else (m : Int)
          if e ≥ 0 then some (mkF64 (sm * 10 ^ e.natAbs) f)
          else some (mkF64 sm (f + e.natAbs))
        | _, _ => none
      | _ => none

/-! ### Text Config Codec: client config update (`update_config_values`)

Direct translation of the line-rewriting loop: a current-section context is
threaded through the lines; header lines update it; blank/comment lines are
skipped; on a `key = value` line whose section is `General` and whose key is
one of the three targets, the whole line is replaced by the freshly formatted
assignment; the `updated` flag records whether anything matched. -/

/-- Is the trimmed line a `[Section]` header? -/
def headerB (t : String) : Bool := strHasPre t "[" && strHasSuf t "]"

def updLoop (ip : String) (port : Nat) (pw : String) :
    Option String → List String → List String × Bool
| _, [] => ([], false)
| sec, l :: rest =>
  let t := rsTrim l
  if headerB t then
    let r := updLoop ip port pw (some (strSlice t 1 (strLength t - 1))) rest
    (l :: r.1, r.2)
  else if t = "" || strHasPre t "#" then
    let r := updLoop ip port pw sec rest
    (l :: r.1, r.2)
  else
    match idxOfC '=' t with
    | none =>
      let r := updLoop ip port pw sec rest
      (l :: r.1, r.2)
    | some i =>
      let key := rsTrim (strTake t i)
      if sec = some "General" then
        if key = "destinationAddress" then
          let r := updLoop ip port pw sec rest
          (("destinationAddress = " ++ ip) :: r.1, true)
        else if key = "port" then
          let r := updLoop ip port pw sec rest
          (("port = " ++ fmtNat port) :: r.1, true)
        else if key = "password" then
          let r := updLoop ip port pw sec rest
          (("password = " ++ pw) :: r.1, true)
        else
          let r := updLoop ip port pw sec rest
          (l :: r.1, r.2)
      else
        let r := updLoop ip port pw sec rest
        (l :: r.1, r.2)

/-- `update_config_values` (lib.rs.backup:1093-1156). -/
def update_config_values (content : String) (ip : String) (port : Nat)
    (password : String) : Except String String :=
  let r := updLoop ip port password none (rsLines content)
  if r.2 = false then .error "No matching configuration keys found to update"
  else .ok (joinWith "\n" r.1)

/-! Declarative companions used to state the frame property. -/

/-- The section in effect after scanning a line (headers switch it). -/
def sectionStep (sec : Option String) (l : String) : Option String :=
  let t := rsTrim l
  if headerB t then some (strSlice t 1 (strLength t - 1)) else sec

/-- The section in effect when line `i` of `ls` is scanned. -/
def secBefore (sec : Option String) (ls : List String) (i : Nat) : Option String :=
  (ls.take i).foldl sectionStep sec

/-- Does this line get rewritten by the client-config update? -/
def isTargetLine (sec : Option String) (l : String) : Bool :=
  let t := rsTrim l
  if headerB t then false
  else if t = "" || strHasPre t "#" then false
  else
    match idxOfC '=' t with
    | none => false
    | some i =>
      decide (sec = some "General") &&
        (let k := rsTrim (strTake t i)
         k = "destinationAddress" || k = "port" || k = "password")

/-- Does any line of `ls` get rewritten (scanning from section context `sec`)? -/
def anyTarget : Option String → List String → Bool
| _, [] => false
| sec, l :: rest => isTargetLine sec l || anyTarget (sectionStep sec l) rest

/-- The replacement text the update writes for a target line. -/
def rewriteOf (ip : String) (port : Nat) (pw : String) (l : String) : String :=
  let t := rsTrim l
  match idxOfC '=' t with
  | none => l
  | some i =>
    let k := rsTrim (strTake t i)
    if k = "destinationAddress" then "destinationAddress = " ++ ip
    else if k = "port" then "port = " ++ fmtNat port
    else if k = "password" then "password = " ++ pw
    else l

/-! ### Text Config Codec: server config update (`update_server_config_values`)

The patch is the `serde_json::Value` the UI sends: presence of a section
object and of a correctly-typed field within it is modelled with `Option`
fields (a JSON field of the wrong type behaves like an absent one, matching
the source's `as_str`/`as_u64`/`as_bool` guards). -/

structure GeneralPatch where
  localAddress : Option String := none
  port : Option Nat := none
  maximumPlayers : Option Nat := none
  hostname : Option String := none
  logLevel : Option Nat := none
  password : Option String := none
deriving DecidableEq

structure PluginsPatch where
  home : Option String := none
  plugins : Option String := none
deriving DecidableEq

structure MasterPatch where
  enabled : Option Bool := none
  address : Option String := none
  port : Option Nat := none
  rate : Option Nat := none
deriving DecidableEq

structure ServerPatch where
  general : Option GeneralPatch := none
  plugins : Option PluginsPatch := none
  masterServer : Option MasterPatch := none
deriving DecidableEq

/-- One key-value line under its section: the replacement line, if the patch
rewrites it. -/
def serverRewrite (patch : ServerPatch) (sec : Option String) (key : String) :
    Option String :=
  if sec = some "General" then
    match patch.general with
    | none => none
    | some g =>
      if key = "localAddress" then g.localAddress.map (fun v => "localAddress = " ++ v)
      else if key = "port" then g.port.map (fun v => "port = " ++ fmtNat v)
      else if key = "maximumPlayers" then
        g.maximumPlayers.map (fun v => "maximumPlayers = " ++ fmtNat v)
      else if key = "hostname" then g.hostname.map (fun v => "hostname = " ++ v)
      else if key = "logLevel" then g.logLevel.map (fun v => "logLevel = " ++ fmtNat v)
      else if key = "password" then g.password.map (fun v => "password = " ++ v)
      else none
  else if sec = some "Plugins" then
    match patch.plugins with
    | none => none
    | some p =>
      if key = "home" then p.home.map (fun v => "home = " ++ v)
      else if key = "plugins" then p.plugins.map (fun v => "plugins = " ++ v)
      else none
  else if sec = some "MasterServer" then
    match patch.masterServer with
    | none => none
    | some m =>
      if key = "enabled" then m.enabled.map (fun v => "enabled = " ++ fmtBool v)
      else if key = "address" then m.address.map (fun v => "address = " ++ v)
      else if key = "port" then m.port.map (fun v => "port = " ++ fmtNat v)
      else if key = "rate" then m.rate.map (fun v => "rate = " ++ fmtNat v)
      else none
  else none

def updServerLoop (patch : ServerPatch) :
    Option String → List String → List String × Bool
| _, [] => ([], false)
| sec, l :: rest =>
  let t := rsTrim l
  if headerB t then
    let r := updServerLoop patch (some (strSlice t 1 (strLength t - 1))) rest
    (l :: r.1, r.2)
  else if t = "" || strHasPre t "#" then
    let r := updServerLoop patch sec rest
    (l :: r.1, r.2)
  else
    match idxOfC '=' t with
    | none =>
      let r := updServerLoop patch sec rest
      (l :: r.1, r.2)
    | some i =>
      let key := rsTrim (strTake t i)
      match serverRewrite patch sec key with
      | some newLine =>
        let r := updServerLoop patch sec rest
        (newLine :: r.1, true)
      | none =>
        let r := updServerLoop patch sec rest
        (l :: r.1, r.2)

/-- `update_server_config_values` (lib.rs.backup:2659-2816). -/
def update_server_config_values (content : String) (patch : ServerPatch) :
    Except String String :=
  let r := updServerLoop patch none (rsLines content)
  if r.2 = false then .error "No matching configuration keys found to update"
  else .ok (joinWith "\n" r.1)

/-- Does this line get rewritten by the server-config update under `patch`? -/
def isServerTargetLine (patch : ServerPatch) (sec : Option String) (l : String) : Bool :=
  let t := rsTrim l
  if headerB t then false
  else if t = "" || strHasPre t "#" then false
  else
    match idxOfC '=' t with
    | none => false
    | some i => (serverRewrite patch sec (rsTrim (strTake t i))).isSome

/-- Does any line of `ls` match a key the patch carries? -/
def anyServerTarget (patch : ServerPatch) : Option String → List String → Bool
| _, [] => false
| sec, l :: rest =>
  isServerTargetLine patch sec l || anyServerTarget patch (sectionStep sec l) rest

/-! ### The two config-file commands, with the on-disk file made explicit

`set_tes3mp_client_config` / `set_tes3mp_server_config`
(lib.rs.backup:1056-1091, 2848-2877): the config file is read, rewritten in
memory, and only written back on success.  The file is modelled as
`Option String` (its content, or `none` when absent); each command returns
the new file state together with its `Result`. -/

def set_tes3mp_client_config (config_path : String) (file : Option String)
    (ip : String) (port : Nat) (password : String) :
    Option String × Except String Bool :=
  match file with
  | none =>
    (none, .error ("TES3MP client config file not found at: " ++ config_path))
  | some content =>
    match update_config_values content ip port password with
    | .error e => (some content, .error e)
    | .ok updated => (some updated, .ok true)

def set_tes3mp_server_config (config_path : String) (file : Option String)
    (patch : ServerPatch) : Option String × Except String Bool :=
  match file with
  | none =>
    (none, .error ("TES3MP server config file not found at: " ++ config_path))
  | some content =>
    match update_server_config_values content patch with
    | .error e => (some content, .error e)
    | .ok updated => (some updated, .ok true)

/-! ### Text Config Codec: server config parser (`parse_server_config`) -/

structure GeneralConfig where
  local_address : String
  port : Nat
  maximum_players : Nat
  hostname : String
  log_level : Nat
  password : String
deriving DecidableEq

structure PluginsConfig where
  home : String
  plugins : String
deriving DecidableEq

structure MasterServerConfig where
  enabled : Bool
  address : String
  port : Nat
  rate : Nat
deriving DecidableEq

structure Tes3MPServerConfig where
  general : GeneralConfig
  plugins : PluginsConfig
  master_server : MasterServerConfig
deriving DecidableEq

/-- The record every parse starts from: the documented hardcoded defaults
(lib.rs.backup:1190-1209). -/
def defaultTes3MPServerConfig : Tes3MPServerConfig where
  general :=
    { local_address := "0.0.0.0"
      port := 25565
      maximum_players := 64
      hostname := "TES3MP server"
      log_level := 1
      password := "" }
  plugins :=
    { home := "./server"
      plugins := "serverCore.lua" }
  master_server :=
    { enabled := true
      address := "master.tes3mp.com"
      port := 25561
      rate := 10000 }

/-- Overlay one recognized `key = value` line onto the record
(`value.parse().unwrap_or(default)` for the numeric and boolean fields). -/
def applyServerKV (sec : Option String) (key value : String)
    (cfg : Tes3MPServerConfig) : Tes3MPServerConfig :=
  if sec = some "General" then
    if key = "localAddress" then { cfg with general.local_address := value }
    else if key = "port" then
      { cfg with general.port := (rsParseNatMax 65535 value).getD 25565 }
    else if key = "maximumPlayers" then
      { cfg with general.maximum_players := (rsParseNatMax 65535 value).getD 64 }
    else if key = "hostname" then { cfg with general.hostname := value }
    else if key = "logLevel" then
      { cfg with general.log_level := (rsParseNatMax 255 value).getD 1 }
    else if key = "password" then { cfg with general.password := value }
    else cfg
  else if sec = some "Plugins" then
    if key = "home" then { cfg with plugins.home := value }
    else if key = "plugins" then { cfg with plugins.plugins := value }
    else cfg
  else if sec = some "MasterServer" then
    if key = "enabled" then
      { cfg with master_server.enabled := (rsParseBool value).getD true }
    else if key = "address" then { cfg with master_server.address := value }
    else if key = "port" then
      { cfg with master_server.port := (rsParseNatMax 65535 value).getD 25561 }
    else if key = "rate" then
      { cfg with master_server.rate := (rsParseNatMax 4294967295 value).getD 10000 }
    else cfg
  else cfg

def parseServerConfigLoop (sec : Option String) (cfg : Tes3MPServerConfig) :
    List String → Tes3MPServerConfig
| [] => cfg
| line :: rest =>
  let t := rsTrim line
  if t = "" || strHasPre t "#" then parseServerConfigLoop sec cfg rest
  else if headerB t then
    parseServerConfigLoop (some (strSlice t 1 (strLength t - 1))) cfg rest
  else
    match idxOfC '=' t with
    | none => parseServerConfigLoop sec cfg rest
    | some i =>
      let key := rsTrim (strTake t i)
      let value := rsTrim (strDrop t (i + 1))
      parseServerConfigLoop sec (applyServerKV sec key value cfg) rest

/-- `parse_server_config` (lib.rs.backup:1189-1264). -/
def parse_server_config (content : String) : Except String Tes3MPServerConfig :=
  .ok (parseServerConfigLoop none defaultTes3MPServerConfig (rsLines content))

/-! ### Settings Script Codec: data model

`GameSetting.value` is the tagged bool/number/string variant the dynamic
`serde_json::Value` holds in this dialect. -/

inductive GSValue where
  | b (v : Bool)
  | num (v : Int)
  | str (v : String)
deriving DecidableEq

structure GameSetting where
  name : String
  value : GSValue
deriving DecidableEq

structure VrSetting where
  name : String
  value : F64
deriving DecidableEq

structure DefaultTimeTable where
  year : Int
  month : Int
  day : Int
  hour : Int
  days_passed : Int
  day_time_scale : Int
  night_time_scale : Int
deriving DecidableEq

structure SpawnLocation where
  cell_description : String
  position : List F64
  rotation : List F64
  text : String
deriving DecidableEq

structure RespawnLocation where
  cell_description : String
  position : List F64
  rotation : List F64
deriving DecidableEq

structure RankColors where
  server_owner : String
  admin : String
  moderator : String
deriving DecidableEq

structure ConfigSettings where
  game_mode : String
  login_time : Int
  max_clients_per_ip : Int
  difficulty : Int
  game_settings : List GameSetting
  vr_settings : List VrSetting
  default_time_table : DefaultTimeTable
  world_startup_scripts : List String
  player_startup_scripts : List String
  pass_time_when_empty : Bool
  night_start_hour : Int
  night_end_hour : Int
  allow_console : Bool
  allow_bed_rest : Bool
  allow_wilderness_rest : Bool
  allow_wait : Bool
  share_journal : Bool
  share_faction_ranks : Bool
  share_faction_expulsion : Bool
  share_faction_reputation : Bool
  share_topics : Bool
  share_bounty : Bool
  share_reputation : Bool
  share_map_exploration : Bool
  share_videos : Bool
  use_instanced_spawn : Bool
  instanced_spawn : SpawnLocation
  noninstanced_spawn : SpawnLocation
  default_respawn : RespawnLocation
  respawn_at_imperial_shrine : Bool
  respawn_at_tribunal_temple : Bool
  forbidden_cells : List String
  max_attribute_value : Int
  max_speed_value : Int
  max_skill_value : Int
  max_acrobatics_value : Int
  ignore_modifier_with_max_skill : Bool
  banned_equipment_items : List String
  players_respawn : Bool
  death_time : Int
  death_penalty_jail_days : Int
  bounty_reset_on_death : Bool
  bounty_death_penalty : Bool
  allow_suicide_command : Bool
  allow_fixme_command : Bool
  fixme_interval : Int
  rank_colors : RankColors
  ping_difference_required_for_authority : Int
  enforced_log_level : Int
  physics_framerate : Int
  allow_on_container_for_unloaded_cells : Bool
  enable_player_collision : Bool
  enable_actor_collision : Bool
  enable_placed_object_collision : Bool
  enforced_collision_ref_ids : List String
  use_actor_collision_for_placed_objects : Bool
  maximum_object_scale : F64
  enforce_data_files : Bool
deriving DecidableEq

structure ServerSettings where
  config : ConfigSettings
deriving DecidableEq

/-- The record `parse_server_settings` starts from: every field's documented
hardcoded default (lib.rs.backup:1380-1465). -/
def defaultConfigSettings : ConfigSettings where
  game_mode := "Default"
  login_time := 60
  max_clients_per_ip := 3
  difficulty := 0
  game_settings := []
  vr_settings := []
  default_time_table :=
    { year := 427, month := 7, day := 16, hour := 9
      days_passed := 1, day_time_scale := 30, night_time_scale := 40 }
  world_startup_scripts := []
  player_startup_scripts := []
  pass_time_when_empty := false
  night_start_hour := 20
  night_end_hour := 6
  allow_console := false
  allow_bed_rest := true
  allow_wilderness_rest := true
  allow_wait := true
  share_journal := true
  share_faction_ranks := true
  share_faction_expulsion := false
  share_faction_reputation := true
  share_topics := true
  share_bounty := false
  share_reputation := true
  share_map_exploration := false
  share_videos := true
  use_instanced_spawn := true
  instanced_spawn :=
    { cell_description := "Seyda Neen, Census and Excise Office"
      position := [mkF64 11303388671875 10, mkF64 (-38714947509766) 11, mkF64 1930 1]
      rotation := [mkF64 9375 5, mkF64 15078122615814 13]
      text := "Multiplayer skips several minutes of the game" ++ sq ++
        "s introduction and places you at the first quest giver." }
  noninstanced_spawn :=
    { cell_description := "-3, -2"
      position := [mkF64 (-238940) 1, mkF64 (-150790) 1, mkF64 5050 1]
      rotation := [mkF64 0 1, mkF64 12 1]
      text := "Multiplayer skips over the original character generation." }
  default_respawn :=
    { cell_description := "Balmora, Temple"
      position := [mkF64 47005673828125 10, mkF64 38747416992188 10,
        mkF64 14758990234375 9]
      rotation := [mkF64 25314688682556 14, mkF64 1570611000061 12] }
  respawn_at_imperial_shrine := true
  respawn_at_tribunal_temple := true
  forbidden_cells := []
  max_attribute_value := 200
  max_speed_value := 365
  max_skill_value := 200
  max_acrobatics_value := 1200
  ignore_modifier_with_max_skill := false
  banned_equipment_items := []
  players_respawn := true
  death_time := 5
  death_penalty_jail_days := 5
  bounty_reset_on_death := false
  bounty_death_penalty := false
  allow_suicide_command := true
  allow_fixme_command := true
  fixme_interval := 30
  rank_colors := { server_owner := "Orange", admin := "Red", moderator := "Green" }
  ping_difference_required_for_authority := 40
  enforced_log_level := -1
  physics_framerate := 60
  allow_on_container_for_unloaded_cells := false
  enable_player_collision := true
  enable_actor_collision := true
  enable_placed_object_collision := false
  enforced_collision_ref_ids := []
  use_actor_collision_for_placed_objects := false
  maximum_object_scale := mkF64 20 1
  enforce_data_files := false

/-! ### Settings Script Codec: scalar and table parsers -/

/-- `parse_string_value` (lib.rs.backup:1726-1732): strip one pair of
surrounding double quotes. -/
def parse_string_value (value : String) : Except String String :=
  if strHasPre value dqs && strHasSuf value dqs then
    .ok (strSlice value 1 (strLength value - 1))
  else .ok value

/-- `parse_number_value` (lib.rs.backup:1734-1738). -/
def parse_number_value (value : String) : Except String Int :=
  match rsParseI32 value with
  | .ok n => .ok n
  | .error e =>
    .error ("Failed to parse number " ++ sq ++ value ++ sq ++ ": " ++ e)

/-- `parse_float_value` (lib.rs.backup:1740-1744). -/
def parse_float_value (value : String) : Except String F64 :=
  match rsParseF64 value with
  | some q => .ok q
  | none =>
    .error ("Failed to parse float " ++ sq ++ value ++ sq ++
      ": invalid float literal")

/-- `parse_bool_value` (lib.rs.backup:1746-1752). -/
def parse_bool_value (value : String) : Except String Bool :=
  if value = "true" then .ok true
  else if value = "false" then .ok false
  else .error ("Invalid boolean value: " ++ value)

def nameQuotePre : String := "name = " ++ dqs

def gameSettingsGo : List String → List GameSetting
| [] => []
| e :: rest =>
  let entry := rsTrim e
  if entry = "" || !(strHasPre entry obrS) then gameSettingsGo rest
  else
    let c := rsTrim (strDrop entry 1)
    match rsSplit ',' c with
    | p0 :: p1 :: _ =>
      let name_part := rsTrim p0
      let value_part := rsTrim p1
      if strHasPre name_part nameQuotePre && strHasSuf name_part dqs then
        let name := strSlice name_part 8 (strLength name_part - 1)
        let value :=
          if strHasPre value_part "value = " then
            let val_str := strDrop value_part 8
            if val_str = "true" then GSValue.b true
            else if val_str = "false" then GSValue.b false
            else
              match rsParseI32 val_str with
              | .ok n => GSValue.num n
              | .error _ => GSValue.str val_str
          else GSValue.str value_part
        ⟨name, value⟩ :: gameSettingsGo rest
      else gameSettingsGo rest
    | _ => gameSettingsGo rest

/-- `parse_game_settings_table` (lib.rs.backup:1754-1795): split the joined
table body on `}` and parse each `{ name = "...", value = ... }` entry. -/
def parse_game_settings_table (content : String) :
    Except String (List GameSetting) :=
  .ok (gameSettingsGo (rsSplit (Char.ofNat 125) content))

def vrSettingsGo : List String → List VrSetting
| [] => []
| e :: rest =>
  let entry := rsTrim e
  if entry = "" || !(strHasPre entry obrS) then vrSettingsGo rest
  else
    let c := rsTrim (strDrop entry 1)
    match rsSplit ',' c with
    | p0 :: p1 :: _ =>
      let name_part := rsTrim p0
      let value_part := rsTrim p1
      if strHasPre name_part nameQuotePre && strHasSuf name_part dqs then
        let name := strSlice name_part 8 (strLength name_part - 1)
        if strHasPre value_part "value = " then
          match rsParseF64 (strDrop value_part 8) with
          | some v => ⟨name, v⟩ :: vrSettingsGo rest
          | none => vrSettingsGo rest
        else vrSettingsGo rest
      else vrSettingsGo rest
    | _ => vrSettingsGo rest

/-- `parse_vr_settings_table` (lib.rs.backup:1797-1828). -/
def parse_vr_settings_table (content : String) : Except String (List VrSetting) :=
  .ok (vrSettingsGo (rsSplit (Char.ofNat 125) content))

def timeTableGo : List String → DefaultTimeTable → Except String DefaultTimeTable
| [], tt => .ok tt
| p :: rest, tt =>
  let part := rsTrim p
  match idxOfC '=' part with
  | none => timeTableGo rest tt
  | some i =>
    let key := rsTrim (strTake part i)
    let value := rsTrim (strDrop part (i + 1))
    if key = "year" then do
      let n ← parse_number_value value; timeTableGo rest { tt with year := n }
    else if key = "month" then do
      let n ← parse_number_value value; timeTableGo rest { tt with month := n }
    else if key = "day" then do
      let n ← parse_number_value value; timeTableGo rest { tt with day := n }
    else if key = "hour" then do
      let n ← parse_number_value value; timeTableGo rest { tt with hour := n }
    else if key = "daysPassed" then do
      let n ← parse_number_value value; timeTableGo rest { tt with days_passed := n }
    else if key = "dayTimeScale" then do
      let n ← parse_number_value value
      timeTableGo rest { tt with day_time_scale := n }
    else if key = "nightTimeScale" then do
      let n ← parse_number_value value
      timeTableGo rest { tt with night_time_scale := n }
    else timeTableGo rest tt

/-- `parse_time_table` (lib.rs.backup:1830-1862): starts from the default
time table and overlays `key = value` parts split on commas. -/
def parse_time_table (content : String) : Except String DefaultTimeTable :=
  timeTableGo (rsSplit ',' content)
    { year := 427, month := 7, day := 16, hour := 9
      days_passed := 1, day_time_scale := 30, night_time_scale := 40 }

/-- `parse_string_array` (lib.rs.backup:1864-1883): only a brace-delimited
body yields entries (comma-split, quote-stripped); anything else yields the
empty list. -/
def parse_string_array (content : String) : Except String (List String) :=
  let c := rsTrim content
  if strHasPre c obrS && strHasSuf c cbrS then
    let inner := strSlice c 1 (strLength c - 1)
    .ok ((rsSplit ',' inner).map (fun p =>
      let part := rsTrim p
      if strHasPre part dqs && strHasSuf part dqs then
        strSlice part 1 (strLength part - 1)
      else part))
  else .ok []

/-- Parse a `{ f1, f2, ... }` float array value (used for spawn positions
and rotations, each entry `parse::<f64>().unwrap_or(0.0)`). -/
def parseFloatArray (value : String) : List F64 :=
  (rsSplit ',' (strSlice value 1 (strLength value - 1))).map
    (fun s => (rsParseF64 (rsTrim s)).getD (mkF64 0 0))

def spawnGo : List String → SpawnLocation → Except String SpawnLocation
| [], sp => .ok sp
| p :: rest, sp =>
  let part := rsTrim p
  match idxOfC '=' part with
  | none => spawnGo rest sp
  | some i =>
    let key := rsTrim (strTake part i)
    let value := rsTrim (strDrop part (i + 1))
    if key = "cellDescription" then do
      let v ← parse_string_value value
      spawnGo rest { sp with cell_description := v }
    else if key = "position" then
      if strHasPre value obrS && strHasSuf value cbrS then
        spawnGo rest { sp with position := parseFloatArray value }
      else spawnGo rest sp
    else if key = "rotation" then
      if strHasPre value obrS && strHasSuf value cbrS then
        spawnGo rest { sp with rotation := parseFloatArray value }
      else spawnGo rest sp
    else if key = "text" then do
      let v ← parse_string_value value
      spawnGo rest { sp with text := v }
    else spawnGo rest sp

/-- `parse_spawn_location` (lib.rs.backup:1885-1933): starts from an empty
spawn record and overlays comma-split `key = value` parts. -/
def parse_spawn_location (content : String) : Except String SpawnLocation :=
  spawnGo (rsSplit ',' content)
    { cell_description := "", position := [], rotation := [], text := "" }

def respawnGo : List String → RespawnLocation → Except String RespawnLocation
| [], sp => .ok sp
| p :: rest, sp =>
  let part := rsTrim p
  match idxOfC '=' part with
  | none => respawnGo rest sp
  | some i =>
    let key := rsTrim (strTake part i)
    let value := rsTrim (strDrop part (i + 1))
    if key = "cellDescription" then do
      let v ← parse_string_value value
      respawnGo rest { sp with cell_description := v }
    else if key = "position" then
      if strHasPre value obrS && strHasSuf value cbrS then
        respawnGo rest { sp with position := parseFloatArray value }
      else respawnGo rest sp
    else if key = "rotation" then
      if strHasPre value obrS && strHasSuf value cbrS then
        respawnGo rest { sp with rotation := parseFloatArray value }
      else respawnGo rest sp
    else respawnGo rest sp

/-- `parse_respawn_location` (lib.rs.backup:1935-1979). -/
def parse_respawn_location (content : String) : Except String RespawnLocation :=
  respawnGo (rsSplit ',' content)
    { cell_description := "", position := [], rotation := [] }

def rankColorsGo : List String → RankColors → Except String RankColors
| [], rc => .ok rc
| p :: rest, rc =>
  let part := rsTrim p
  match idxOfC '=' part with
  | none => rankColorsGo rest rc
  | some i =>
    let key := rsTrim (strTake part i)
    let value := rsTrim (strDrop part (i + 1))
    if key = "serverOwner" then do
      let v ← parse_string_value value
      rankColorsGo rest { rc with server_owner := v }
    else if key = "admin" then do
      let v ← parse_string_value value
      rankColorsGo rest { rc with admin := v }
    else if key = "moderator" then do
      let v ← parse_string_value value
      rankColorsGo rest { rc with moderator := v }
    else rankColorsGo rest rc

/-- `parse_rank_colors` (lib.rs.backup:1981-2011): starts from the default
colors. -/
def parse_rank_colors (content : String) : Except String RankColors :=
  rankColorsGo (rsSplit ',' content)
    { server_owner := "Orange", admin := "Red", moderator := "Green" }

/-- `parse_simple_value` (lib.rs.backup:1530-1675): typed dispatch on the
scalar key; unknown keys are silently skipped. -/
def parse_simple_value (key value : String) (config : ConfigSettings) :
    Except String ConfigSettings :=
  if key = "gameMode" then do
    let v ← parse_string_value value; .ok { config with game_mode := v }
  else if key = "loginTime" then do
    let v ← parse_number_value value; .ok { config with login_time := v }
  else if key = "maxClientsPerIP" then do
    let v ← parse_number_value value; .ok { config with max_clients_per_ip := v }
  else if key = "difficulty" then do
    let v ← parse_number_value value; .ok { config with difficulty := v }
  else if key = "passTimeWhenEmpty" then do
    let v ← parse_bool_value value; .ok { config with pass_time_when_empty := v }
  else if key = "nightStartHour" then do
    let v ← parse_number_value value; .ok { config with night_start_hour := v }
  else if key = "nightEndHour" then do
    let v ← parse_number_value value; .ok { config with night_end_hour := v }
  else if key = "allowConsole" then do
    let v ← parse_bool_value value; .ok { config with allow_console := v }
  else if key = "allowBedRest" then do
    let v ← parse_bool_value value; .ok { config with allow_bed_rest := v }
  else if key = "allowWildernessRest" then do
    let v ← parse_bool_value value; .ok { config with allow_wilderness_rest := v }
  else if key = "allowWait" then do
    let v ← parse_bool_value value; .ok { config with allow_wait := v }
  else if key = "shareJournal" then do
    let v ← parse_bool_value value; .ok { config with share_journal := v }
  else if key = "shareFactionRanks" then do
    let v ← parse_bool_value value; .ok { config with share_faction_ranks := v }
  else if key = "shareFactionExpulsion" then do
    let v ← parse_bool_value value; .ok { config with share_faction_expulsion := v }
  else if key = "shareFactionReputation" then do
    let v ← parse_bool_value value
    .ok { config with share_faction_reputation := v }
  else if key = "shareTopics" then do
    let v ← parse_bool_value value; .ok { config with share_topics := v }
  else if key = "shareBounty" then do
    let v ← parse_bool_value value; .ok { config with share_bounty := v }
  else if key = "shareReputation" then do
    let v ← parse_bool_value value; .ok { config with share_reputation := v }
  else if key = "shareMapExploration" then do
    let v ← parse_bool_value value; .ok { config with share_map_exploration := v }
  else if key = "shareVideos" then do
    let v ← parse_bool_value value; .ok { config with share_videos := v }
  else if key = "useInstancedSpawn" then do
    let v ← parse_bool_value value; .ok { config with use_instanced_spawn := v }
  else if key = "respawnAtImperialShrine" then do
    let v ← parse_bool_value value
    .ok { config with respawn_at_imperial_shrine := v }
  else if key = "respawnAtTribunalTemple" then do
    let v ← parse_bool_value value
    .ok { config with respawn_at_tribunal_temple := v }
  else if key = "maxAttributeValue" then do
    let v ← parse_number_value value; .ok { config with max_attribute_value := v }
  else if key = "maxSpeedValue" then do
    let v ← parse_number_value value; .ok { config with max_speed_value := v }
  else if key = "maxSkillValue" then do
    let v ← parse_number_value value; .ok { config with max_skill_value := v }
  else if key = "maxAcrobaticsValue" then do
    let v ← parse_number_value value; .ok { config with max_acrobatics_value := v }
  else if key = "ignoreModifierWithMaxSkill" then do
    let v ← parse_bool_value value
    .ok { config with ignore_modifier_with_max_skill := v }
  else if key = "playersRespawn" then do
    let v ← parse_bool_value value; .ok { config with players_respawn := v }
  else if key = "deathTime" then do
    let v ← parse_number_value value; .ok { config with death_time := v }
  else if key = "deathPenaltyJailDays" then do
    let v ← parse_number_value value
    .ok { config with death_penalty_jail_days := v }
  else if key = "bountyResetOnDeath" then do
    let v ← parse_bool_value value; .ok { config with bounty_reset_on_death := v }
  else if key = "bountyDeathPenalty" then do
    let v ← parse_bool_value value; .ok { config with bounty_death_penalty := v }
  else if key = "allowSuicideCommand" then do
    let v ← parse_bool_value value; .ok { config with allow_suicide_command := v }
  else if key = "allowFixmeCommand" then do
    let v ← parse_bool_value value; .ok { config with allow_fixme_command := v }
  else if key = "fixmeInterval" then do
    let v ← parse_number_value value; .ok { config with fixme_interval := v }
  else if key = "pingDifferenceRequiredForAuthority" then do
    let v ← parse_number_value value
    .ok { config with ping_difference_required_for_authority := v }
  else if key = "enforcedLogLevel" then do
    let v ← parse_number_value value; .ok { config with enforced_log_level := v }
  else if key = "physicsFramerate" then do
    let v ← parse_number_value value; .ok { config with physics_framerate := v }
  else if key = "allowOnContainerForUnloadedCells" then do
    let v ← parse_bool_value value
    .ok { config with allow_on_container_for_unloaded_cells := v }
  else if key = "enablePlayerCollision" then do
    let v ← parse_bool_value value; .ok { config with enable_player_collision := v }
  else if key = "enableActorCollision" then do
    let v ← parse_bool_value value; .ok { config with enable_actor_collision := v }
  else if key = "enablePlacedObjectCollision" then do
    let v ← parse_bool_value value
    .ok { config with enable_placed_object_collision := v }
  else if key = "useActorCollisionForPlacedObjects" then do
    let v ← parse_bool_value value
    .ok { config with use_actor_collision_for_placed_objects := v }
  else if key = "maximumObjectScale" then do
    let v ← parse_float_value value; .ok { config with maximum_object_scale := v }
  else if key = "enforceDataFiles" then do
    let v ← parse_bool_value value; .ok { config with enforce_data_files := v }
  else .ok config

/-- `parse_table_content` (lib.rs.backup:1677-1724): dispatch on the table
name; unknown tables are silently skipped. -/
def parse_table_content (content table_name : String) (config : ConfigSettings) :
    Except String ConfigSettings :=
  if table_name = "gameSettings" then do
    let v ← parse_game_settings_table content
    .ok { config with game_settings := v }
  else if table_name = "vrSettings" then do
    let v ← parse_vr_settings_table content
    .ok { config with vr_settings := v }
  else if table_name = "defaultTimeTable" then do
    let v ← parse_time_table content
    .ok { config with default_time_table := v }
  else if table_name = "worldStartupScripts" then do
    let v ← parse_string_array content
    .ok { config with world_startup_scripts := v }
  else if table_name = "playerStartupScripts" then do
    let v ← parse_string_array content
    .ok { config with player_startup_scripts := v }
  else if table_name = "forbiddenCells" then do
    let v ← parse_string_array content
    .ok { config with forbidden_cells := v }
  else if table_name = "bannedEquipmentItems" then do
    let v ← parse_string_array content
    .ok { config with banned_equipment_items := v }
  else if table_name = "enforcedCollisionRefIds" then do
    let v ← parse_string_array content
    .ok { config with enforced_collision_ref_ids := v }
  else if table_name = "instancedSpawn" then do
    let v ← parse_spawn_location content
    .ok { config with instanced_spawn := v }
  else if table_name = "noninstancedSpawn" then do
    let v ← parse_spawn_location content
    .ok { config with noninstanced_spawn := v }
  else if table_name = "defaultRespawn" then do
    let v ← parse_respawn_location content
    .ok { config with default_respawn := v }
  else if table_name = "rankColors" then do
    let v ← parse_rank_colors content
    .ok { config with rank_colors := v }
  else .ok config

/-! ### Settings Script Codec: the main parse loop

The loop state is `(in_table, current_table_name, table_content, config)`.
Note the faithful reproduction of the source's `trimmed[6..eq_pos]` slice:
it skips only the six characters of `config`, so every extracted key keeps
its leading dot. -/

def parse_settings_lines (inTable : Bool) (tableName : String)
    (tableContent : List String) (config : ConfigSettings) :
    List String → Except String ConfigSettings
| [] => .ok config
| line :: rest =>
  let t := rsTrim line
  if t = "" || strHasPre t "--" then
    parse_settings_lines inTable tableName tableContent config rest
  else if strHasPre t "config." && hasChar t '=' then
    match idxOfC '=' t with
    | some eqPos =>
      let key := rsTrim (strSlice t 6 eqPos)
      let value := rsTrim (strDrop t (eqPos + 1))
      if strHasPre value obrS then
        if strHasSuf value cbrS then
          match parse_table_content (strSlice value 1 (strLength value - 1))
              key config with
          | .ok c2 => parse_settings_lines false key [] c2 rest
          | .error e => .error e
        else
          let c0 := strSlice value 1 (strLength value)
          let c0 := rsTrim c0
          parse_settings_lines true key (if c0 = "" then [] else [c0]) config rest
      else
        match parse_simple_value key value config with
        | .ok c2 => parse_settings_lines inTable tableName tableContent c2 rest
        | .error e => .error e
    | none => parse_settings_lines inTable tableName tableContent config rest
  else if inTable then
    if t = cbrS then
      match parse_table_content (joinWith " " tableContent) tableName config with
      | .ok c2 => parse_settings_lines false tableName [] c2 rest
      | .error e => .error e
    else parse_settings_lines inTable tableName (tableContent ++ [t]) config rest
  else parse_settings_lines inTable tableName tableContent config rest

/-- `parse_server_settings` (lib.rs.backup:1379-1528). -/
def parse_server_settings (content : String) : Except String ServerSettings :=
  match parse_settings_lines false "" [] defaultConfigSettings (rsLines content) with
  | .ok c => .ok ⟨c⟩
  | .error e => .error e

/-! ### Settings Script Codec: the serializer (`write_server_settings`)

The source appends newline-terminated chunks to one output string; the
embedding lists the emitted LINES in order (each source chunk contributes
the lines shown, a chunk ending in a double newline contributing a trailing
empty line), and `write_server_settings` joins them with newlines exactly as
the chunk concatenation does. -/

/-- `serde_json` rendering of a game-setting value as emitted by the writer
(booleans and numbers bare, strings re-quoted). -/
def gsValueStr : GSValue → String
| .b v => fmtBool v
| .num n => fmtInt n
| .str s => "\"" ++ s ++ "\""

/-- One `{ name = ..., value = ... },` entry line of the gameSettings table. -/
def gameSettingLine (st : GameSetting) : String :=
  "    \x7b name = \"" ++ st.name ++ "\", value = " ++ gsValueStr st.value ++ " \x7d,"

/-- One entry line of the vrSettings table. -/
def vrSettingLine (st : VrSetting) : String :=
  "    \x7b name = \"" ++ st.name ++ "\", value = " ++ fmtF64 st.value ++ " \x7d,"

/-- `", "`-joined quoted string entries (the writer's string-array loops). -/
def quoteJoin (items : List String) : String :=
  joinWith ", " (items.map (fun s => "\"" ++ s ++ "\""))

/-- `", "`-joined float entries (the writer's position/rotation loops). -/
def floatJoin (items : List F64) : String :=
  joinWith ", " (items.map fmtF64)

/-- The lines of `write_server_settings`'s output, in emission order
(lib.rs.backup:2013-2657). -/
def write_server_settings_lines (settings : ServerSettings) : List String :=
  let c := settings.config
  [ "config = \x7b\x7d", "",
    "-- The path used by the server for its data folder",
    "config.dataPath = tes3mp.GetDataPath()", "",
    "-- The game mode displayed for this server in the server browser",
    "config.gameMode = \"" ++ c.game_mode ++ "\"", "",
    "-- Time to login, in seconds",
    "config.loginTime = " ++ fmtInt c.login_time, "",
    "-- How many clients are allowed to connect from the same IP address",
    "config.maxClientsPerIP = " ++ fmtInt c.max_clients_per_ip, "",
    "-- The difficulty level used by default",
    "-- Note: In OpenMW, the difficulty slider goes between -100 and 100, with 0 as the default,",
    "--       though you can use any integer value here",
    "config.difficulty = " ++ fmtInt c.difficulty, "",
    "-- The game settings to enforce for players",
    "-- Note 1: Anything from OpenMW" ++ sq ++
      "s game settings can be added here, which means anything listed",
    "--         on https://openmw.readthedocs.io/en/latest/reference/modding/settings/game.html",
    "-- Note 2: Some settings, such as \"difficulty\" and \"actors processing range\", cannot be",
    "--         changed from here",
    "config.gameSettings = \x7b" ] ++
  c.game_settings.map gameSettingLine ++
  [ "\x7d", "",
    "-- The VR settings to enforce for players",
    "config.vrSettings = \x7b" ] ++
  c.vr_settings.map vrSettingLine ++
  [ "\x7d", "",
    "-- The world time used for a newly created world",
    "config.defaultTimeTable = \x7b year = " ++ fmtInt c.default_time_table.year ++
      ", month = " ++ fmtInt c.default_time_table.month ++
      ", day = " ++ fmtInt c.default_time_table.day ++
      ", hour = " ++ fmtInt c.default_time_table.hour ++ ",",
    "    daysPassed = " ++ fmtInt c.default_time_table.days_passed ++
      ", dayTimeScale = " ++ fmtInt c.default_time_table.day_time_scale ++
      ", nightTimeScale = " ++ fmtInt c.default_time_table.night_time_scale ++ " \x7d",
    "",
    "-- Which ingame startup scripts should be run via the /runstartup command",
    "-- Note: These affect the world and must not be run for every player who joins.",
    "config.worldStartupScripts = \x7b" ++ quoteJoin c.world_startup_scripts ++ "\x7d",
    "",
    "-- Which ingame startup scripts should be run on every player who joins",
    "-- Note: These pertain to game mechanics that wouldn" ++ sq ++
      "t work otherwise, such as vampirism checks",
    "config.playerStartupScripts = \x7b" ++ quoteJoin c.player_startup_scripts ++ "\x7d",
    "",
    "-- Whether the world time should continue passing when there are no players on the server",
    "config.passTimeWhenEmpty = " ++ fmtBool c.pass_time_when_empty, "",
    "-- The hours at which night is regarded as starting and ending, used to pass time using a",
    "-- different timescale when it" ++ sq ++ "s night",
    "config.nightStartHour = " ++ fmtInt c.night_start_hour,
    "config.nightEndHour = " ++ fmtInt c.night_end_hour, "",
    "-- Whether players should be allowed to use the ingame tilde (~) console by default",
    "config.allowConsole = " ++ fmtBool c.allow_console, "",
    "-- Whether players should be allowed to rest in bed by default",
    "config.allowBedRest = " ++ fmtBool c.allow_bed_rest, "",
    "-- Whether players should be allowed to rest in the wilderness by default",
    "config.allowWildernessRest = " ++ fmtBool c.allow_wilderness_rest, "",
    "-- Whether players should be allowed to wait by default",
    "config.allowWait = " ++ fmtBool c.allow_wait, "",
    "-- Whether journal entries should be shared across the players on the server or not",
    "config.shareJournal = " ++ fmtBool c.share_journal, "",
    "-- Whether faction ranks should be shared across the players on the server or not",
    "config.shareFactionRanks = " ++ fmtBool c.share_faction_ranks, "",
    "-- Whether faction expulsion should be shared across the players on the server or not",
    "config.shareFactionExpulsion = " ++ fmtBool c.share_faction_expulsion, "",
    "-- Whether faction reputation should be shared across the players on the server or not",
    "config.shareFactionReputation = " ++ fmtBool c.share_faction_reputation, "",
    "-- Whether dialogue topics should be shared across the players on the server or not",
    "config.shareTopics = " ++ fmtBool c.share_topics, "",
    "-- Whether crime bounties should be shared across players on the server or not",
    "config.shareBounty = " ++ fmtBool c.share_bounty, "",
    "-- Whether reputation should be shared across players on the server or not",
    "config.shareReputation = " ++ fmtBool c.share_reputation, "",
    "-- Whether map exploration should be shared across players on the server or not",
    "config.shareMapExploration = " ++ fmtBool c.share_map_exploration, "",
    "-- Whether ingame videos should be played for other players when triggered by one player",
    "config.shareVideos = " ++ fmtBool c.share_videos, "",
    "-- Whether the instanced spawn should be used instead of the noninstanced one",
    "config.useInstancedSpawn = " ++ fmtBool c.use_instanced_spawn, "",
    "-- Where players will be spawned if an instanced spawn is desired, with a different clean copy of",
    "-- this cell existing for each player",
    "-- Warning: Only interior cells can be instanced",
    "config.instancedSpawn = \x7b",
    "    cellDescription = \"" ++ c.instanced_spawn.cell_description ++ "\",",
    "    position = \x7b" ++ floatJoin c.instanced_spawn.position ++ "\x7d,",
    "    rotation = \x7b" ++ floatJoin c.instanced_spawn.rotation ++ "\x7d,",
    "    text = \"" ++ c.instanced_spawn.text ++ "\"",
    "\x7d", "",
    "-- Where players will be spawned if an instanced spawn is not desired",
    "config.noninstancedSpawn = \x7b",
    "    cellDescription = \"" ++ c.noninstanced_spawn.cell_description ++ "\",",
    "    position = \x7b" ++ floatJoin c.noninstanced_spawn.position ++ "\x7d,",
    "    rotation = \x7b" ++ floatJoin c.noninstanced_spawn.rotation ++ "\x7d,",
    "    text = \"" ++ c.noninstanced_spawn.text ++ "\"",
    "\x7d", "",
    "-- The location that players respawn at, unless overridden below by other respawn options",
    "config.defaultRespawn = \x7b",
    "    cellDescription = \"" ++ c.default_respawn.cell_description ++ "\",",
    "    position = \x7b" ++ floatJoin c.default_respawn.position ++ "\x7d,",
    "    rotation = \x7b" ++ floatJoin c.default_respawn.rotation ++ "\x7d",
    "\x7d", "",
    "-- Whether the default respawn location should be ignored in favor of respawning the",
    "-- player at the nearest Imperial shrine",
    "config.respawnAtImperialShrine = " ++ fmtBool c.respawn_at_imperial_shrine, "",
    "-- Whether the default respawn location should be ignored in favor of respawning the",
    "-- player at the nearest Tribunal temple",
    "-- Note: When both this and the Imperial shrine option are enabled, there is a 50%",
    "--       chance of the player being respawned at either",
    "config.respawnAtTribunalTemple = " ++ fmtBool c.respawn_at_tribunal_temple, "",
    "-- The cells that players are forbidden from entering, with any attempt to enter them",
    "-- transporting them to the last location in their previous cell",
    "config.forbiddenCells = \x7b" ++ quoteJoin c.forbidden_cells ++ "\x7d", "",
    "-- The maximum value that any attribute except Speed is allowed to have",
    "config.maxAttributeValue = " ++ fmtInt c.max_attribute_value, "",
    "-- The maximum value that Speed is allowed to have",
    "-- Note: Speed is given special treatment because of the Boots of Blinding Speed",
    "config.maxSpeedValue = " ++ fmtInt c.max_speed_value, "",
    "-- The maximum value that any skill except Acrobatics is allowed to have",
    "config.maxSkillValue = " ++ fmtInt c.max_skill_value, "",
    "-- The maximum value that Acrobatics is allowed to have",
    "-- Note: Acrobatics is given special treatment because of the Scroll of Icarian Flight",
    "config.maxAcrobaticsValue = " ++ fmtInt c.max_acrobatics_value, "",
    "-- Allow modifier values to bypass allowed skill values",
    "config.ignoreModifierWithMaxSkill = " ++ fmtBool c.ignore_modifier_with_max_skill,
    "",
    "-- The refIds of items that players are not allowed to equip for balancing reasons",
    "config.bannedEquipmentItems = \x7b" ++ quoteJoin c.banned_equipment_items ++ "\x7d",
    "",
    "-- Whether players should respawn when dying",
    "config.playersRespawn = " ++ fmtBool c.players_respawn, "",
    "-- Time to stay dead before being respawned, in seconds",
    "config.deathTime = " ++ fmtInt c.death_time, "",
    "-- The number of days spent in jail as a penalty for dying, when respawning",
    "config.deathPenaltyJailDays = " ++ fmtInt c.death_penalty_jail_days, "",
    "-- Whether players" ++ sq ++ " bounties are reset to 0 after dying",
    "config.bountyResetOnDeath = " ++ fmtBool c.bounty_reset_on_death, "",
    "-- Whether players spend time in jail proportional to their bounty after dying",
    "-- Note: If deathPenaltyJailDays is also enabled, that penalty will be added to",
    "--       this one",
    "config.bountyDeathPenalty = " ++ fmtBool c.bounty_death_penalty, "",
    "-- Whether players should be allowed to use the /suicide command",
    "config.allowSuicideCommand = " ++ fmtBool c.allow_suicide_command, "",
    "-- Whether players should be allowed to use the /fixme command",
    "config.allowFixmeCommand = " ++ fmtBool c.allow_fixme_command, "",
    "-- How many seconds need to pass between uses of the /fixme command by a player",
    "config.fixmeInterval = " ++ fmtInt c.fixme_interval, "",
    "-- The colors used for different ranks on the server",
    "config.rankColors = \x7b serverOwner = color." ++ c.rank_colors.server_owner ++
      ", admin = color." ++ c.rank_colors.admin ++
      ", moderator = color." ++ c.rank_colors.moderator ++ " \x7d", "",
    "-- What the difference in ping needs to be in favor of a new arrival to a cell or region",
    "-- compared to that cell or region" ++ sq ++
      "s current player authority for the new arrival to become",
    "-- the authority there",
    "-- Note: Setting this too low will lead to constant authority changes which cause more lag",
    "config.pingDifferenceRequiredForAuthority = " ++
      fmtInt c.ping_difference_required_for_authority, "",
    "-- The log level enforced on clients by default, determining how much debug information",
    "-- is displayed in their debug window and logs",
    "-- Note 1: Set this to -1 to allow clients to use whatever log level they have set in",
    "--         their client settings",
    "-- Note 2: If you set this to 0 or 1, clients will be able to read about the movements",
    "--         and actions of other players that they would otherwise not know about,",
    "--         while also incurring a framerate loss on highly populated servers",
    "config.enforcedLogLevel = " ++ fmtInt c.enforced_log_level, "",
    "-- The physics framerate used by default",
    "-- Note: In OpenMW, the physics framerate is 60 by default",
    "config.physicsFramerate = " ++ fmtInt c.physics_framerate, "",
    "-- Whether players are allowed to interact with containers located in unloaded cells.",
    "config.allowOnContainerForUnloadedCells = " ++
      fmtBool c.allow_on_container_for_unloaded_cells, "",
    "-- Whether players should collide with other actors",
    "config.enablePlayerCollision = " ++ fmtBool c.enable_player_collision, "",
    "-- Whether actors should collide with other actors",
    "config.enableActorCollision = " ++ fmtBool c.enable_actor_collision, "",
    "-- Whether placed objects should collide with actors",
    "config.enablePlacedObjectCollision = " ++
      fmtBool c.enable_placed_object_collision, "",
    "-- Enforce collision for certain placed object refIds even when enablePlacedObjectCollision",
    "-- is false",
    "config.enforcedCollisionRefIds = \x7b" ++
      quoteJoin c.enforced_collision_ref_ids ++ "\x7d", "",
    "-- Whether placed object collision (when turned on) resembles actor collision, in that it",
    "-- prevents players from standing on top of the placed objects without slipping",
    "config.useActorCollisionForPlacedObjects = " ++
      fmtBool c.use_actor_collision_for_placed_objects, "",
    "-- The maximum scale that objects are allowed to have",
    "config.maximumObjectScale = " ++ fmtF64 c.maximum_object_scale, "",
    "-- Whether data files should be enforced",
    "config.enforceDataFiles = " ++ fmtBool c.enforce_data_files ]

/-- Join lines into the file content the writer produces (each emitted line
is newline-terminated, so the content ends with a newline). -/
def unlinesAll : List String → String
| [] => ""
| l :: rest => l ++ "\n" ++ unlinesAll rest

/-- `write_server_settings` (lib.rs.backup:2013-2657). -/
def write_server_settings (settings : ServerSettings) : Except String String :=
  .ok (unlinesAll (write_server_settings_lines settings))

/-! ### Archive Installer: payload folder location

The extraction directory is modelled as its listing: entries in `read_dir`
order, each with its file name and whether it is a directory.  Paths are
strings with `/`-joining. -/

structure DirEntry where
  name : String
  isDir : Bool
deriving DecidableEq

def pathJoin (a b : String) : String := a ++ "/" ++ b

/-- Rust `{:?}` rendering of the collected `Vec<String>` of folder names. -/
def debugStrList (l : List String) : String :=
  "[" ++ joinWith ", " (l.map (fun s => "\"" ++ s ++ "\"")) ++ "]"

/-- Does a folder name match the locator's test
(`to_lowercase().starts_with("tes3mp")`)? -/
def tes3mpNameMatch (name : String) : Bool := strHasPre (lowerStr name) "tes3mp"

def findFolderLoop (extract_path : String) :
    List DirEntry → List String → Except String String
| [], found =>
  .error ("No TES3MP folder found in: " ++ extract_path ++
    ". Available folders: " ++ debugStrList found)
| e :: rest, found =>
  if e.isDir then
    let found' := found ++ [e.name]
    if tes3mpNameMatch e.name then .ok (pathJoin extract_path e.name)
    else findFolderLoop extract_path rest found'
  else findFolderLoop extract_path rest found

/-- `find_tes3mp_folder` (lib.rs.backup:345-385): scan the listing in order,
return the first directory whose lowercased name starts with `tes3mp`, else
fail listing every directory name examined. -/
def find_tes3mp_folder (extract_path : String) (entries : List DirEntry) :
    Except String String :=
  findFolderLoop extract_path entries []

/-- Step 5/6 of `download_latest_windows_release` (lib.rs.backup:219-247):
if `tes3mp.exe` exists directly in the extraction root the root is used and
subdirectories are never scanned; otherwise `find_tes3mp_folder` runs. -/
def locate_tes3mp_folder (extract_path : String) (rootHasExe : Bool)
    (entries : List DirEntry) : Except String String :=
  if rootHasExe then .ok extract_path
  else find_tes3mp_folder extract_path entries

/-! ### Application Config Store -/

inductive Mode where
  | player
  | server
deriving DecidableEq

structure NerevarConfig where
  tes3mp_path : String
  version : String
  last_updated : String
  mode : Option Mode
deriving DecidableEq

/-- Step 8 of `download_latest_windows_release` (lib.rs.backup:298-329):
update only `tes3mp_path`/`version`/`last_updated` on an existing config,
defaulting `mode` to Player only when it was absent; create a fresh
Player-mode config when none exists.  `now` is the RFC3339 timestamp. -/
def upsert_nerevar_config (existing : Option NerevarConfig)
    (tes3mp_path version now : String) : NerevarConfig :=
  match existing with
  | some c =>
    { c with
      tes3mp_path := tes3mp_path
      version := version
      last_updated := now
      mode := if c.mode.isNone then some Mode.player else c.mode }
  | none =>
    { tes3mp_path := tes3mp_path
      version := version
      last_updated := now
      mode := some Mode.player }

/-- `set_mode` (lib.rs.backup:696-731): load the existing config (or build
the not-installed default) and overwrite only its `mode` field. -/
def set_mode_config (existing : Option NerevarConfig) (mode : Mode)
    (now : String) : NerevarConfig :=
  let c :=
    match existing with
    | some c => c
    | none =>
      { tes3mp_path := ""
        version := "0.0.0"
        last_updated := now
        mode := some mode }
  { c with mode := some mode }

/-! ### Process Supervisor

A launch command resolves the tool's executable under the stored install
path, spawns it, emits a start event with the process id, and a detached
monitor then emits exactly one terminal event once the wait completes.  The
spawn outcome and the wait outcome are the command's external inputs:
`wait = .ok (some code)` is a normal exit, `.ok none` termination without a
code (signal), `.error e` a failed wait.  The observable event trace of one
launch is returned alongside the command's result. -/

structure ExitPayload where
  pid : Nat
  success : Bool
  exit_code : Option Int
  message : String
deriving DecidableEq

inductive AppEvent where
  | started (channel : String) (pid : Nat)
  | exited (channel : String) (payload : ExitPayload)
deriving DecidableEq

/-- The fixed per-tool strings of one launcher command. -/
structure ToolSpec where
  exeName : String
  startChannel : String
  exitChannel : String
  label : String
  okMsg : String
  errMsg : String
  notFoundMsg : String
  failMsg : String
deriving DecidableEq

/-- The terminal event's payload, from the wait outcome
(`success` is Rust `ExitStatus::success()`, i.e. exit code zero). -/
def exitPayload (t : ToolSpec) (pid : Nat) (wait : Except String (Option Int)) :
    ExitPayload :=
  match wait with
  | .ok status =>
    { pid := pid
      success := status = some 0
      exit_code := status
      message := if status = some 0 then t.okMsg else t.errMsg }
  | .error e =>
    { pid := pid
      success := false
      exit_code := none
      message := "Failed to wait for " ++ t.label ++ ": " ++ e }

/-- The shared body of the five launcher commands (lib.rs.backup:492-575,
577-666, 873-962, 964-1044): config lookup, executable existence check,
spawn, start event, monitored wait, terminal event. -/
def launch_tool (t : ToolSpec) (config : Option NerevarConfig)
    (exeExists : Bool) (spawn : Except String Nat)
    (wait : Except String (Option Int)) : Except String String × List AppEvent :=
  match config with
  | none => (.error "No Nerevar config found. Please install TES3MP first.", [])
  | some c =>
    let exePath := pathJoin c.tes3mp_path t.exeName
    if !exeExists then (.error (t.notFoundMsg ++ exePath), [])
    else
      match spawn with
      | .error e => (.error (t.failMsg ++ e), [])
      | .ok pid =>
        (.ok (t.label ++ " started successfully (PID: " ++ fmtNat pid ++ ")"),
         [AppEvent.started t.startChannel pid,
          AppEvent.exited t.exitChannel (exitPayload t pid wait)])

def tes3mpSpec : ToolSpec where
  exeName := "tes3mp.exe"
  startChannel := "tes3mp-started"
  exitChannel := "tes3mp-exited"
  label := "TES3MP"
  okMsg := "TES3MP completed successfully"
  errMsg := "TES3MP exited with an error"
  notFoundMsg := "TES3MP not found at: "
  failMsg := "Failed to run TES3MP: "

def openmwWizardSpec : ToolSpec where
  exeName := "openmw-wizard.exe"
  startChannel := "openmw-wizard-started"
  exitChannel := "openmw-wizard-exited"
  label := "OpenMW wizard"
  okMsg := "OpenMW wizard completed successfully"
  errMsg := "OpenMW wizard exited with an error"
  notFoundMsg := "OpenMW wizard not found at: "
  failMsg := "Failed to run OpenMW wizard: "

def openmwLauncherSpec : ToolSpec where
  exeName := "openmw-launcher.exe"
  startChannel := "openmw-launcher-started"
  exitChannel := "openmw-launcher-exited"
  label := "OpenMW launcher"
  okMsg := "OpenMW launcher completed successfully"
  errMsg := "OpenMW launcher exited with an error"
  notFoundMsg := "OpenMW launcher not found at: "
  failMsg := "Failed to run OpenMW launcher: "

def tes3mpBrowserSpec : ToolSpec where
  exeName := "tes3mp-browser.exe"
  startChannel := "tes3mp-browser-started"
  exitChannel := "tes3mp-browser-exited"
  label := "TES3MP browser"
  okMsg := "TES3MP browser completed successfully"
  errMsg := "TES3MP browser exited with an error"
  notFoundMsg := "TES3MP browser not found at: "
  failMsg := "Failed to run TES3MP browser: "

/-- Modelled from the spec: the dedicated-server launcher `run_tes3mp_server`
is invoked by the UI (tes3mp-server-card) and its
`tes3mp-server-started`/`tes3mp-server-exited` event pair is consumed by the
UI hooks, but its implementation is not among the sources; per spec §4.4/§6
it follows the same contract as the four sibling launchers. -/
def tes3mpServerSpec : ToolSpec where
  exeName := "tes3mp-server.exe"
  startChannel := "tes3mp-server-started"
  exitChannel := "tes3mp-server-exited"
  label := "TES3MP server"
  okMsg := "TES3MP server completed successfully"
  errMsg := "TES3MP server exited with an error"
  notFoundMsg := "TES3MP server not found at: "
  failMsg := "Failed to run TES3MP server: "

/-- `run_tes3mp` (lib.rs.backup:964-1044). -/
def run_tes3mp (config : Option NerevarConfig) (exeExists : Bool)
    (spawn : Except String Nat) (wait : Except String (Option Int)) :
    Except String String × List AppEvent :=
  launch_tool tes3mpSpec config exeExists spawn wait

/-- `run_openmw_wizard` (lib.rs.backup:492-575). -/
def run_openmw_wizard (config : Option NerevarConfig) (exeExists : Bool)
    (spawn : Except String Nat) (wait : Except String (Option Int)) :
    Except String String × List AppEvent :=
  launch_tool openmwWizardSpec config exeExists spawn wait

/-- `run_openmw_launcher` (lib.rs.backup:577-666). -/
def run_openmw_launcher (config : Option NerevarConfig) (exeExists : Bool)
    (spawn : Except String Nat) (wait : Except String (Option Int)) :
    Except String String × List AppEvent :=
  launch_tool openmwLauncherSpec config exeExists spawn wait

/-- `run_tes3mp_browser` (lib.rs.backup:873-962). -/
def run_tes3mp_browser (config : Option NerevarConfig) (exeExists : Bool)
    (spawn : Except String Nat) (wait : Except String (Option Int)) :
    Except String String × List AppEvent :=
  launch_tool tes3mpBrowserSpec config exeExists spawn wait

/-- Modelled from the spec: `run_tes3mp_server` (see `tes3mpServerSpec`). -/
def run_tes3mp_server (config : Option NerevarConfig) (exeExists : Bool)
    (spawn : Except String Nat) (wait : Except String (Option Int)) :
    Except String String × List AppEvent :=
  launch_tool tes3mpServerSpec config exeExists spawn wait

/-- The five launchable tools. -/
def nerevarTools : List ToolSpec :=
  [tes3mpSpec, openmwLauncherSpec, openmwWizardSpec, tes3mpBrowserSpec,
   tes3mpServerSpec]

/-! ### Reference definitions used by the proofs -/

/-- Structural-recursion reference version of `splitSepL` (proved equal to it
below; the `List.rec` form exists only for iterative kernel reduction). -/
def splitSimple (c : Char) : List Char → List (List Char)
| [] => [[]]
| x :: xs =>
  if x = c then [] :: splitSimple c xs
  else
    match splitSimple c xs with
    | [] => [[x]]
    | y :: ys => (x :: y) :: ys

/-- A line that survives `Rust lines ∘ join-with-newlines` unchanged: it
contains no newline and does not end in a carriage return. -/
def cleanLine (l : String) : Bool :=
  !(hasChar l '\n') && !(lastCharOf l.data = some '\r')

/-- The declarative form of the client-config rewrite: every line is kept
verbatim except target lines, which are replaced; the section context is
threaded exactly as the loop does. -/
def specUpdateLines (ip : String) (port : Nat) (pw : String) :
    Option String → List String → List String
| _, [] => []
| sec, l :: rest =>
  (if isTargetLine sec l then rewriteOf ip port pw l else l) ::
    specUpdateLines ip port pw (sectionStep sec l) rest

/-- A concrete settings record with every list field populated and a
non-default game mode, used to exercise the round trip. -/
def exampleSettings : ServerSettings :=
  ⟨{ defaultConfigSettings with
      game_mode := "Custom"
      world_startup_scripts := ["worldScript"]
      player_startup_scripts := ["playerScript"]
      forbidden_cells := ["Balmora"]
      banned_equipment_items := ["glass_dagger"]
      enforced_collision_ref_ids := ["chest_small_01"] }⟩

/-- A concrete application config used to instantiate theorems. -/
def sampleConfig : NerevarConfig :=
  { tes3mp_path := "C:/Users/nerevar/AppData/Roaming/Nerevar/TES3MP"
    version := "0.8.1"
    last_updated := "2024-01-01T00:00:00+00:00"
    mode := some Mode.server }

/-- The lifecycle contract of one launcher: a successful spawn yields exactly
one start event carrying the pid, strictly before exactly one terminal event
carrying the same pid, whose success flag is true exactly when the exit code
is zero and which carries the exit code whenever the wait completed. -/
def launchPairing (run : Option NerevarConfig → Bool → Except String Nat →
    Except String (Option Int) → Except String String × List AppEvent)
    (t : ToolSpec) : Prop :=
  ∀ (cfg : NerevarConfig) (pid : Nat) (wait : Except String (Option Int)),
    (run (some cfg) true (.ok pid) wait).2 =
      [AppEvent.started t.startChannel pid,
       AppEvent.exited t.exitChannel (exitPayload t pid wait)] ∧
    (exitPayload t pid wait).pid = pid ∧
    ((exitPayload t pid wait).success = true ↔
      (exitPayload t pid wait).exit_code = some 0) ∧
    (∀ st, wait = .ok st → (exitPayload t pid wait).exit_code = st)

/-! ## Theorems

First, the equivalence of the iterative string primitives with their
structural reference forms, and the `lines`/`unlines` bridge used to reason
about the serializer's output. -/

theorem revGo_eq (l : List Char) : ∀ acc, revGo l acc = l.reverseAux acc := by
  induction l with
  | nil => intro acc; rfl
  | cons x xs ih => intro acc; exact ih (x :: acc)

theorem revTR_eq (l : List Char) : revTR l = l.reverse := by
  rw [revTR, revGo_eq]; rfl

theorem revGoP_eq {α : Type} (l : List α) : ∀ acc, revGo l acc = l.reverseAux acc := by
  induction l with
  | nil => intro acc; rfl
  | cons x xs ih => intro acc; exact ih (x :: acc)

theorem revTRP_eq {α : Type} (l : List α) : revTR l = l.reverse := by
  rw [revTR, revGoP_eq]; rfl

theorem lastGo_eq (l : List Char) : ∀ acc, lastGo l acc =
    (match l.getLast? with | some c => some c | none => acc) := by
  induction l with
  | nil => intro acc; rfl
  | cons x xs ih =>
    intro acc
    have hstep : lastGo (x :: xs) acc = lastGo xs (some x) := rfl
    rw [hstep, ih (some x)]
    cases xs with
    | nil => rfl
    | cons y ys =>
      rw [List.getLast?_cons_cons]
      cases h : (y :: ys).getLast? with
      | none => exact absurd (List.getLast?_eq_none_iff.mp h) (by simp)
      | some c => rfl

theorem lastCharOf_eq (l : List Char) : lastCharOf l = l.getLast? := by
  rw [lastCharOf, lastGo_eq]
  cases h : l.getLast? <;> rfl

theorem splitSimple_ne_nil (c : Char) (l : List Char) : splitSimple c l ≠ [] := by
  cases l with
  | nil => simp [splitSimple]
  | cons x xs =>
    rw [splitSimple]
    split
    · simp
    · split <;> simp

theorem splitSepGo_eq (c : Char) (l : List Char) : ∀ (cur : List Char)
    (acc : List (List Char)),
    splitSepGo c l cur acc =
      acc.reverse ++ (match splitSimple c l with
        | [] => [cur.reverse]
        | y :: ys => (cur.reverse ++ y) :: ys) := by
  induction l with
  | nil =>
    intro cur acc
    have hbase : splitSepGo c [] cur acc = revTR (revTR cur :: acc) := rfl
    rw [hbase, revTRP_eq, revTR_eq]
    simp [splitSimple]
  | cons x xs ih =>
    intro cur acc
    have hstep : splitSepGo c (x :: xs) cur acc =
        if x = c then splitSepGo c xs [] (revTR cur :: acc)
        else splitSepGo c xs (x :: cur) acc := rfl
    rw [hstep]
    by_cases hx : x = c
    · rw [if_pos hx, ih]
      cases h : splitSimple c xs with
      | nil => exact absurd h (splitSimple_ne_nil c xs)
      | cons y ys =>
        subst hx
        simp [splitSimple, h, revTR_eq, List.append_assoc]
    · rw [if_neg hx, ih]
      cases h : splitSimple c xs with
      | nil => exact absurd h (splitSimple_ne_nil c xs)
      | cons y ys =>
        rw [splitSimple, if_neg hx, h]
        simp [List.append_assoc]

theorem splitSepL_eq (c : Char) (l : List Char) : splitSepL c l = splitSimple c l := by
  rw [splitSepL, splitSepGo_eq]
  cases h : splitSimple c l with
  | nil => exact absurd h (splitSimple_ne_nil c l)
  | cons y ys => simp

theorem strAppend_data (a b : String) : (a ++ b).data = a.data ++ b.data := rfl

theorem unlines_cons_data (l : String) (ls : List String) :
    (unlinesAll (l :: ls)).data = l.data ++ '\n' :: (unlinesAll ls).data := by
  show (l ++ "\n" ++ unlinesAll ls).data = _
  rw [strAppend_data, strAppend_data]
  simp

theorem splitSimple_append (c : Char) (a : List Char) (h : ∀ x ∈ a, x ≠ c) :
    ∀ b, splitSimple c (a ++ b) =
      (match splitSimple c b with
        | [] => [a]
        | y :: ys => (a ++ y) :: ys) := by
  induction a with
  | nil =>
    intro b
    cases hb : splitSimple c b with
    | nil => exact absurd hb (splitSimple_ne_nil c b)
    | cons y ys => simp [hb]
  | cons x a' ih =>
    intro b
    have hx : x ≠ c := h x (by simp)
    have h' : ∀ y ∈ a', y ≠ c := fun y hy => h y (by simp [hy])
    rw [List.cons_append, splitSimple, if_neg hx, ih h' b]
    cases hb : splitSimple c b with
    | nil => exact absurd hb (splitSimple_ne_nil c b)
    | cons y ys => simp

theorem cleanLine_no_nl {l : String} (h : cleanLine l = true) :
    ∀ x ∈ l.data, x ≠ '\n' := by
  have : hasChar l '\n' = false := by
    by_cases hc : hasChar l '\n' = true
    · rw [cleanLine, hc] at h; simp at h
    · simpa using hc
  intro x hx
  rw [hasChar, List.any_eq_false] at this
  exact fun hxe => (by simpa [hxe] using this x hx)

theorem cleanLine_no_cr {l : String} (h : cleanLine l = true) :
    lastCharOf l.data ≠ some '\r' := by
  intro hcr
  rw [cleanLine, hcr] at h
  simp at h

theorem splitSimple_unlines (ls : List String)
    (h : ∀ l ∈ ls, cleanLine l = true) :
    splitSimple '\n' (unlinesAll ls).data = ls.map String.data ++ [[]] := by
  induction ls with
  | nil => rfl
  | cons l ls' ih =>
    rw [unlines_cons_data,
      splitSimple_append '\n' l.data (cleanLine_no_nl (h l (by simp)))]
    have hstep : splitSimple '\n' ('\n' :: (unlinesAll ls').data) =
        [] :: splitSimple '\n' (unlinesAll ls').data := by
      rw [splitSimple, if_pos rfl]
    rw [hstep, ih (fun x hx => h x (by simp [hx]))]
    simp

theorem unlines_lastChar (ls : List String) (h : ls ≠ []) :
    lastCharOf (unlinesAll ls).data = some '\n' := by
  rw [lastCharOf_eq]
  induction ls with
  | nil => exact absurd rfl h
  | cons l ls' ih =>
    rw [unlines_cons_data]
    cases ls' with
    | nil =>
      show (l.data ++ ['\n']).getLast? = some '\n'
      rw [List.getLast?_concat]
    | cons l2 ls'' =>
      have hne : (unlinesAll (l2 :: ls'')).data ≠ [] := by
        rw [unlines_cons_data]
        simp
      rw [List.getLast?_append_cons]
      cases hd : (unlinesAll (l2 :: ls'')).data with
      | nil => exact absurd hd hne
      | cons x xs =>
        rw [List.getLast?_cons_cons]
        have hlast := ih (by simp)
        rwa [hd] at hlast

theorem dropTrailCR_of_clean (ld : List Char) (h : lastCharOf ld ≠ some '\r') :
    dropTrailCR ld = ld := by
  rw [dropTrailCR]
  split
  · next rest heq =>
    exfalso
    apply h
    rw [lastCharOf_eq, ← List.head?_reverse, ← revTR_eq, heq]
    rfl
  · rfl

theorem map_reline (ls : List String) (h : ∀ l ∈ ls, cleanLine l = true) :
    (ls.map String.data).map (fun ld => String.mk (dropTrailCR ld)) = ls := by
  induction ls with
  | nil => rfl
  | cons l ls' ih =>
    rw [List.map_cons, List.map_cons,
      dropTrailCR_of_clean l.data (cleanLine_no_cr (h l (by simp))),
      ih (fun x hx => h x (by simp [hx]))]

/-- The bridge: rereading the serializer's newline-joined output recovers
exactly the emitted lines, provided no line contains a newline or ends in a
carriage return. -/
theorem rsLines_unlines (ls : List String) (h1 : ls ≠ [])
    (h2 : ls.all cleanLine = true) : rsLines (unlinesAll ls) = ls := by
  have hall : ∀ l ∈ ls, cleanLine l = true := List.all_eq_true.mp h2
  obtain ⟨l0, ls', rfl⟩ := List.exists_cons_of_ne_nil h1
  rw [rsLines]
  split
  · next heq =>
    exfalso
    rw [unlines_cons_data] at heq
    simp at heq
  · next x xs heq =>
    rw [splitSepL_eq, splitSimple_unlines _ hall, unlines_lastChar _ (by simp)]
    simp only [if_pos, List.dropLast_concat, List.map_map]
    simpa [List.map_map] using map_reline _ hall

theorem except_ok_bind {ε α β : Type} (a : α) (f : α → Except ε β) :
    (Except.ok a : Except ε α).bind f = f a := rfl

/-! ### Default-completion lemmas -/

theorem parseServerConfigLoop_skip (ls : List String) : ∀ (sec : Option String)
    (cfg : Tes3MPServerConfig),
    (ls.all (fun l => rsTrim l = "" || strHasPre (rsTrim l) "#")) = true →
    parseServerConfigLoop sec cfg ls = cfg := by
  induction ls with
  | nil => intro sec cfg _; rfl
  | cons l rest ih =>
    intro sec cfg hall
    rw [List.all_cons, Bool.and_eq_true] at hall
    rw [parseServerConfigLoop]
    simp only [hall.1, if_true]
    exact ih sec cfg hall.2

theorem parse_settings_lines_skip (ls : List String) : ∀ (it : Bool)
    (tn : String) (tc : List String) (cfg : ConfigSettings),
    (ls.all (fun l => rsTrim l = "" || strHasPre (rsTrim l) "--")) = true →
    parse_settings_lines it tn tc cfg ls = .ok cfg := by
  induction ls with
  | nil => intro it tn tc cfg _; rfl
  | cons l rest ih =>
    intro it tn tc cfg hall
    rw [List.all_cons, Bool.and_eq_true] at hall
    rw [parse_settings_lines]
    simp only [hall.1, if_true]
    exact ih it tn tc cfg hall.2

/-! ### The settings parser never matches a key: its key slice
`trimmed[6..eq_pos]` keeps the leading dot of `config.`, so every extracted
key/table name is empty or starts with a dot, and the parser is a constant
function returning the default record. -/

theorem strHasPre_dot_mk (xs : List Char) :
    strHasPre (String.mk ('.' :: xs)) "." = true :=
  List.isPrefixOf_iff_prefix.mpr ⟨xs, rfl⟩

theorem dotted_key_shape (key : String) (h : strHasPre key "." = true) :
    ∃ xs, key = String.mk ('.' :: xs) := by
  obtain ⟨ks⟩ := key
  obtain ⟨rest, hr⟩ := List.isPrefixOf_iff_prefix.mp h
  refine ⟨rest, ?_⟩
  have hr' : ('.' :: rest : List Char) = ks := hr
  exact (congrArg String.mk hr').symm

theorem parse_simple_value_unmatched (key value : String) (c : ConfigSettings)
    (h : key = "" ∨ strHasPre key "." = true) :
    parse_simple_value key value c = .ok c := by
  rcases h with h | h
  · rw [h]
    rfl
  · obtain ⟨xs, rfl⟩ := dotted_key_shape key h
    rfl

theorem parse_table_content_unmatched (content table_name : String)
    (c : ConfigSettings) (h : table_name = "" ∨ strHasPre table_name "." = true) :
    parse_table_content content table_name c = .ok c := by
  rcases h with h | h
  · rw [h]
    rfl
  · obtain ⟨xs, rfl⟩ := dotted_key_shape table_name h
    rfl

theorem rsTrim_dot_head (xs : List Char) :
    strHasPre (rsTrim (String.mk ('.' :: xs))) "." = true := by
  show strHasPre (String.mk (trimL ('.' :: xs))) "." = true
  rw [trimL]
  have h1 : ('.' :: xs).dropWhile isWsChar = '.' :: xs := by
    rw [List.dropWhile_cons, if_neg (by decide)]
  rw [h1, List.reverse_cons, List.dropWhile_append]
  by_cases hw : (xs.reverse.dropWhile isWsChar).isEmpty = true
  · rw [if_pos hw]
    rfl
  · rw [if_neg (by simpa using hw), List.reverse_append]
    exact strHasPre_dot_mk _

/-- The key extracted by the settings loop from a `config.…=…` line is empty
or starts with a dot. -/
theorem sliceKey_unmatched (t : String) (hconf : strHasPre t "config." = true)
    (eqPos : Nat) :
    rsTrim (strSlice t 6 eqPos) = "" ∨
      strHasPre (rsTrim (strSlice t 6 eqPos)) "." = true := by
  obtain ⟨rest, happ⟩ : ∃ rest,
      ['c', 'o', 'n', 'f', 'i', 'g', '.'] ++ rest = t.data := by
    have hp : ("config.").data <+: t.data :=
      List.isPrefixOf_iff_prefix.mp hconf
    obtain ⟨rest, hr⟩ := hp
    exact ⟨rest, hr⟩
  by_cases he : 7 ≤ eqPos
  · right
    obtain ⟨k, rfl⟩ : ∃ k, eqPos = k + 7 := ⟨eqPos - 7, by omega⟩
    have hslice : strSlice t 6 (k + 7) =
        String.mk ('.' :: rest.take k) := by
      rw [strSlice, ← happ]
      rfl
    rw [hslice]
    exact rsTrim_dot_head (rest.take k)
  · left
    have hnil : (t.data.take eqPos).drop 6 = [] := by
      apply List.drop_eq_nil_of_le
      exact le_trans (List.length_take_le eqPos t.data) (by omega)
    rw [strSlice, hnil]
    rfl

theorem parse_settings_lines_const (ls : List String) : ∀ (it : Bool)
    (tn : String) (tc : List String) (cfg : ConfigSettings),
    (tn = "" ∨ strHasPre tn "." = true) →
    parse_settings_lines it tn tc cfg ls = .ok cfg := by
  induction ls with
  | nil => intros; rfl
  | cons l rest ih =>
    intro it tn tc cfg htn
    rw [parse_settings_lines]
    by_cases h1 : (rsTrim l = "" || strHasPre (rsTrim l) "--") = true
    · simp only [h1, if_true]
      exact ih _ _ _ _ htn
    · simp only [h1, Bool.false_eq_true, if_false]
      by_cases h2 : (strHasPre (rsTrim l) "config." && hasChar (rsTrim l) '=') = true
      · simp only [h2, if_true]
        rw [Bool.and_eq_true] at h2
        cases hidx : idxOfC '=' (rsTrim l) with
        | none =>
          simp only [hidx]
          exact ih _ _ _ _ htn
        | some eqPos =>
          simp only [hidx]
          have hkey := sliceKey_unmatched (rsTrim l) h2.1 eqPos
          by_cases h3 :
              strHasPre (rsTrim (strDrop (rsTrim l) (eqPos + 1))) obrS = true
          · simp only [h3, if_true]
            by_cases h4 :
                strHasSuf (rsTrim (strDrop (rsTrim l) (eqPos + 1))) cbrS = true
            · simp only [h4, if_true,
                parse_table_content_unmatched _ _ cfg hkey]
              exact ih _ _ _ _ hkey
            · simp only [h4, Bool.false_eq_true, if_false]
              exact ih _ _ _ _ hkey
          · simp only [h3, Bool.false_eq_true, if_false,
              parse_simple_value_unmatched _ _ cfg hkey]
            exact ih _ _ _ _ htn
      · simp only [h2, Bool.false_eq_true, if_false]
        cases it with
        | true =>
          simp only [if_true]
          by_cases h5 : rsTrim l = cbrS
          · simp only [h5, if_true,
              parse_table_content_unmatched _ _ cfg htn]
            exact ih _ _ _ _ htn
          · simp only [h5, if_false]
            exact ih _ _ _ _ htn
        | false =>
          simp only [Bool.false_eq_true, if_false]
          exact ih _ _ _ _ htn

/-- The settings parser is a constant function: whatever the input, it
succeeds with the hardcoded default record. -/
theorem parse_server_settings_const (content : String) :
    parse_server_settings content = .ok ⟨defaultConfigSettings⟩ := by
  rw [parse_server_settings,
    parse_settings_lines_const (rsLines content) false "" [] defaultConfigSettings
      (Or.inl rfl)]

/-! ### Field-absence lemmas for the server text-config parser -/

theorem applyServerKV_preserves (sec : Option String) (key value : String)
    (cfg : Tes3MPServerConfig) (hp : key ≠ "port")
    (hm : key ≠ "maximumPlayers") :
    (applyServerKV sec key value cfg).general.port = cfg.general.port ∧
    (applyServerKV sec key value cfg).general.maximum_players =
      cfg.general.maximum_players := by
  unfold applyServerKV
  repeat' split
  all_goals simp_all

theorem parseServerConfigLoop_preserves (ls : List String) :
    ∀ (sec : Option String) (cfg : Tes3MPServerConfig),
    (ls.all (fun l =>
      match idxOfC '=' (rsTrim l) with
      | none => true
      | some i => !(rsTrim (strTake (rsTrim l) i) = "port") &&
          !(rsTrim (strTake (rsTrim l) i) = "maximumPlayers"))) = true →
    (parseServerConfigLoop sec cfg ls).general.port = cfg.general.port ∧
    (parseServerConfigLoop sec cfg ls).general.maximum_players =
      cfg.general.maximum_players := by
  induction ls with
  | nil => intro sec cfg _; exact ⟨rfl, rfl⟩
  | cons l rest ih =>
    intro sec cfg hall
    rw [List.all_cons, Bool.and_eq_true] at hall
    rw [parseServerConfigLoop]
    by_cases h1 : (rsTrim l = "" || strHasPre (rsTrim l) "#") = true
    · simp only [h1, if_true]
      exact ih _ _ hall.2
    · simp only [h1, Bool.false_eq_true, if_false]
      by_cases h2 : headerB (rsTrim l) = true
      · simp only [h2, if_true]
        exact ih _ _ hall.2
      · simp only [h2, Bool.false_eq_true, if_false]
        cases hidx : idxOfC '=' (rsTrim l) with
        | none =>
          simp only [hidx]
          exact ih _ _ hall.2
        | some i =>
          simp only [hidx]
          have hl := hall.1
          rw [hidx] at hl
          rw [Bool.and_eq_true] at hl
          have hp : rsTrim (strTake (rsTrim l) i) ≠ "port" := by
            simpa using hl.1
          have hm : rsTrim (strTake (rsTrim l) i) ≠ "maximumPlayers" := by
            simpa using hl.2
          have hkv := applyServerKV_preserves sec (rsTrim (strTake (rsTrim l) i))
            (rsTrim (strDrop (rsTrim l) (i + 1))) cfg hp hm
          have hrest := ih sec (applyServerKV sec (rsTrim (strTake (rsTrim l) i))
            (rsTrim (strDrop (rsTrim l) (i + 1))) cfg) hall.2
          exact ⟨hrest.1.trans hkv.1, hrest.2.trans hkv.2⟩

/-- C3: parsing the empty string with the server text-config parser yields
the fully-populated default record (port 25565, maximumPlayers 64), parsing
the empty string with the settings-script parser yields the fully-populated
default record (nightStartHour 20, physicsFramerate 60), and more generally
any input whose lines are all blank or comments leaves every field at its
documented hardcoded default. -/
theorem C3_empty_parse_yields_defaults :
    parse_server_config "" = .ok defaultTes3MPServerConfig ∧
    defaultTes3MPServerConfig.general.port = 25565 ∧
    defaultTes3MPServerConfig.general.maximum_players = 64 ∧
    parse_server_settings "" = .ok ⟨defaultConfigSettings⟩ ∧
    defaultConfigSettings.night_start_hour = 20 ∧
    defaultConfigSettings.physics_framerate = 60 ∧
    (∀ content : String,
      ((rsLines content).all (fun l => rsTrim l = "" || strHasPre (rsTrim l) "#")) = true →
      parse_server_config content = .ok defaultTes3MPServerConfig) ∧
    (∀ content : String,
      ((rsLines content).all (fun l => rsTrim l = "" || strHasPre (rsTrim l) "--")) = true →
      parse_server_settings content = .ok ⟨defaultConfigSettings⟩) ∧
    (∀ content : String,
      ((rsLines content).all (fun l =>
        match idxOfC '=' (rsTrim l) with
        | none => true
        | some i => !(rsTrim (strTake (rsTrim l) i) = "port") &&
            !(rsTrim (strTake (rsTrim l) i) = "maximumPlayers"))) = true →
      ∃ cfg, parse_server_config content = .ok cfg ∧
        cfg.general.port = 25565 ∧ cfg.general.maximum_players = 64) := by
  refine ⟨rfl, rfl, rfl, rfl, rfl, rfl, ?_, ?_, ?_⟩
  · intro content hall
    rw [parse_server_config, parseServerConfigLoop_skip _ _ _ hall]
  · intro content hall
    rw [parse_server_settings, parse_settings_lines_skip _ _ _ _ _ hall]
  · intro content hall
    exact ⟨_, rfl,
      (parseServerConfigLoop_preserves (rsLines content) none
        defaultTes3MPServerConfig hall).1,
      (parseServerConfigLoop_preserves (rsLines content) none
        defaultTes3MPServerConfig hall).2⟩

/-- C3 witness: a file of comments and blank lines parses to the defaults in
both codecs, and a file assigning only an unrelated key keeps port and
maximumPlayers at their defaults. -/
theorem C3_empty_parse_yields_defaults_witness :
    parse_server_config "# a comment\n\n   \n" = .ok defaultTes3MPServerConfig ∧
    parse_server_settings "-- a comment\n\n   \n" = .ok ⟨defaultConfigSettings⟩ ∧
    (∃ cfg, parse_server_config "hostname = Nerevar\n" = .ok cfg ∧
      cfg.general.port = 25565 ∧ cfg.general.maximum_players = 64) :=
  ⟨C3_empty_parse_yields_defaults.2.2.2.2.2.2.1 "# a comment\n\n   \n" (by decide),
   C3_empty_parse_yields_defaults.2.2.2.2.2.2.2.1 "-- a comment\n\n   \n" (by decide),
   C3_empty_parse_yields_defaults.2.2.2.2.2.2.2.2 "hostname = Nerevar\n" (by decide)⟩

set_option maxRecDepth 4000 in
/-- C2: `config.forbiddenCells = {"A","B"}` and the same table split across
three lines both parse to the SAME forbidden-cells value, but that value is
the empty list (the parser's `trimmed[6..eq_pos]` slice keeps the leading
dot, so the table name `.forbiddenCells` never matches a handler; and
`parse_string_array` would anyway reject the brace-stripped body), not the
two-element list the claim states. -/
theorem C2_forbidden_cells_both_forms_parse_empty :
    parse_server_settings "config.forbiddenCells = \x7b\"A\",\"B\"\x7d" =
      .ok ⟨defaultConfigSettings⟩ ∧
    parse_server_settings "config.forbiddenCells = \x7b\n\"A\",\"B\"\n\x7d" =
      .ok ⟨defaultConfigSettings⟩ ∧
    defaultConfigSettings.forbidden_cells = [] ∧
    ([] : List String) ≠ ["A", "B"] := by
  refine ⟨rfl, rfl, rfl, by decide⟩

set_option maxRecDepth 4000 in
/-- C9: a malformed integer literal for the known scalar key `loginTime`
does NOT make the settings parser fail — indeed the settings parser never
fails on ANY input: the key is extracted as `.loginTime` (the slice keeps
the dot), never dispatches to the typed scalar parser, and the parse
succeeds with the default record.  Moreover even the typed parser the
dispatch was meant to reach reports only the raw value, never the key. -/
theorem C9_malformed_scalar_not_rejected :
    (∀ content : String, ∃ c, parse_server_settings content = .ok c) ∧
    parse_server_settings "config.loginTime = abc" = .ok ⟨defaultConfigSettings⟩ ∧
    parse_number_value "abc" =
      .error ("Failed to parse number " ++ sq ++ "abc" ++ sq ++
        ": invalid digit found in string") ∧
    parse_simple_value ".loginTime" "abc" defaultConfigSettings =
      .ok defaultConfigSettings := by
  refine ⟨fun content => ⟨_, parse_server_settings_const content⟩, rfl, rfl, rfl⟩

/-- C1: the settings round trip does not restore the record: for EVERY
record `R`, serializing `R` and re-parsing the output yields the hardcoded
default record, because the parser's key slice `trimmed[6..eq_pos]` keeps
the leading dot of `config.` and therefore never matches any scalar key or
table name; and the example record (every list field non-empty, game mode
"Custom") differs from that default, so the round trip loses it. -/
theorem C1_round_trip_returns_defaults :
    (∀ s : ServerSettings,
      (write_server_settings s).bind parse_server_settings =
        .ok ⟨defaultConfigSettings⟩) ∧
    exampleSettings.config ≠ defaultConfigSettings := by
  constructor
  · intro s
    have hw : write_server_settings s =
        .ok (unlinesAll (write_server_settings_lines s)) := rfl
    rw [hw, except_ok_bind, parse_server_settings_const]
  · decide

/-! ### Frame lemmas for the client-config update -/

theorem updLoop_eq (ip : String) (port : Nat) (pw : String)
    (ls : List String) : ∀ (sec : Option String),
    updLoop ip port pw sec ls =
      (specUpdateLines ip port pw sec ls, anyTarget sec ls) := by
  induction ls with
  | nil => intro sec; rfl
  | cons l rest ih =>
    intro sec
    simp only [updLoop, specUpdateLines, anyTarget, isTargetLine, sectionStep,
      rewriteOf, ih]
    by_cases h1 : headerB (rsTrim l)
    · simp [h1]
    · simp only [h1, if_false, Bool.false_eq_true, ite_false]
      by_cases h2 : (rsTrim l = "" || strHasPre (rsTrim l) "#") = true
      · simp [h2]
      · simp only [h2, if_false, Bool.false_eq_true, ite_false]
        cases hidx : idxOfC '=' (rsTrim l) with
        | none => simp [hidx]
        | some i =>
          simp only [hidx]
          by_cases hsec : sec = some "General"
          · by_cases k1 : rsTrim (strTake (rsTrim l) i) = "destinationAddress"
            · simp [hsec, k1]
            · by_cases k2 : rsTrim (strTake (rsTrim l) i) = "port"
              · simp [hsec, k1, k2]
              · by_cases k3 : rsTrim (strTake (rsTrim l) i) = "password"
                · simp [hsec, k1, k2, k3]
                · simp [hsec, k1, k2, k3]
          · simp [hsec]

theorem specUpdateLines_length (ip : String) (port : Nat) (pw : String)
    (ls : List String) : ∀ (sec : Option String),
    (specUpdateLines ip port pw sec ls).length = ls.length := by
  induction ls with
  | nil => intro sec; rfl
  | cons l rest ih =>
    intro sec
    simp [specUpdateLines, ih]

theorem secBefore_zero (sec : Option String) (ls : List String) :
    secBefore sec ls 0 = sec := rfl

theorem secBefore_succ (sec : Option String) (l : String) (ls : List String)
    (i : Nat) :
    secBefore sec (l :: ls) (i + 1) = secBefore (sectionStep sec l) ls i := by
  simp [secBefore, List.take_succ_cons]

theorem specUpdateLines_getD (ip : String) (port : Nat) (pw : String)
    (ls : List String) : ∀ (sec : Option String) (i : Nat),
    (specUpdateLines ip port pw sec ls).getD i "" =
      (if isTargetLine (secBefore sec ls i) (ls.getD i "") then
        rewriteOf ip port pw (ls.getD i "")
      else ls.getD i "") := by
  induction ls with
  | nil =>
    intro sec i
    have hz : isTargetLine (secBefore sec [] i) "" = false := rfl
    simp [specUpdateLines, hz, List.getD]
  | cons l rest ih =>
    intro sec i
    cases i with
    | zero =>
      simp only [specUpdateLines, List.getD_cons_zero, secBefore_zero]
    | succ j =>
      rw [secBefore_succ]
      simp only [specUpdateLines, List.getD_cons_succ]
      exact ih (sectionStep sec l) j

/-- C4: if the input contains at least one target key under `[General]`, the
client-config update succeeds, its output is the newline-join of a line list
of the same length as the input's lines, in which every non-target line is
byte-identical to the input line at the same position and every target line
is the freshly formatted assignment. -/
theorem C4_client_update_rewrites_only_targets (content ip pw : String)
    (port : Nat) (h : anyTarget none (rsLines content) = true) :
    ∃ out : List String,
      update_config_values content ip port pw = .ok (joinWith "\n" out) ∧
      out.length = (rsLines content).length ∧
      ∀ i : Nat,
        out.getD i "" =
          (if isTargetLine (secBefore none (rsLines content) i)
              ((rsLines content).getD i "") then
            rewriteOf ip port pw ((rsLines content).getD i "")
          else (rsLines content).getD i "") := by
  refine ⟨specUpdateLines ip port pw none (rsLines content), ?_, ?_, ?_⟩
  · rw [update_config_values, updLoop_eq]
    simp [h]
  · exact specUpdateLines_length ip port pw (rsLines content) none
  · intro i
    exact specUpdateLines_getD ip port pw (rsLines content) none i

/-- C4 witness: a concrete file with a comment, an unknown key and a target
key under `[General]`. -/
theorem C4_client_update_rewrites_only_targets_witness :
    anyTarget none (rsLines "[General]\nport = 1\n# note\nfoo = bar") = true ∧
    (∃ out : List String,
      update_config_values "[General]\nport = 1\n# note\nfoo = bar"
        "203.0.113.7" 25565 "hunter2" = .ok (joinWith "\n" out) ∧
      out.length =
        (rsLines "[General]\nport = 1\n# note\nfoo = bar").length ∧
      ∀ i : Nat,
        out.getD i "" =
          (if isTargetLine
              (secBefore none (rsLines "[General]\nport = 1\n# note\nfoo = bar") i)
              ((rsLines "[General]\nport = 1\n# note\nfoo = bar").getD i "") then
            rewriteOf "203.0.113.7" 25565 "hunter2"
              ((rsLines "[General]\nport = 1\n# note\nfoo = bar").getD i "")
          else (rsLines "[General]\nport = 1\n# note\nfoo = bar").getD i "")) :=
  ⟨by decide,
   C4_client_update_rewrites_only_targets "[General]\nport = 1\n# note\nfoo = bar"
     "203.0.113.7" "hunter2" 25565 (by decide)⟩

/-! ### The server-config update's matched flag -/

theorem updServerLoop_snd (patch : ServerPatch) (ls : List String) :
    ∀ (sec : Option String),
    (updServerLoop patch sec ls).2 = anyServerTarget patch sec ls := by
  induction ls with
  | nil => intro sec; rfl
  | cons l rest ih =>
    intro sec
    simp only [updServerLoop, anyServerTarget, isServerTargetLine, sectionStep]
    by_cases h1 : headerB (rsTrim l)
    · simp [h1, ih]
    · simp only [h1, if_false, Bool.false_eq_true, ite_false]
      by_cases h2 : (rsTrim l = "" || strHasPre (rsTrim l) "#") = true
      · simp [h2, ih]
      · simp only [h2, if_false, Bool.false_eq_true, ite_false]
        cases hidx : idxOfC '=' (rsTrim l) with
        | none => simp [hidx, ih]
        | some i =>
          simp only [hidx]
          cases hr : serverRewrite patch sec (rsTrim (strTake (rsTrim l) i)) with
          | none => simp [hr, ih]
          | some newLine => simp [hr]

/-- C5: when no line matches a target key, the client-config update and the
server-config update both fail with the "no matching keys" error instead of
succeeding with the input unchanged. -/
theorem C5_no_op_update_is_an_error (content ip pw : String) (port : Nat)
    (scontent : String) (patch : ServerPatch)
    (hc : anyTarget none (rsLines content) = false)
    (hs : anyServerTarget patch none (rsLines scontent) = false) :
    update_config_values content ip port pw =
      .error "No matching configuration keys found to update" ∧
    update_server_config_values scontent patch =
      .error "No matching configuration keys found to update" := by
  constructor
  · rw [update_config_values, updLoop_eq]
    simp [hc]
  · rw [update_server_config_values]
    simp [updServerLoop_snd, hs]

/-- C5 witness: a client config without a `[General]` section, and a server
config updated with an empty patch. -/
theorem C5_no_op_update_is_an_error_witness :
    anyTarget none (rsLines "# comment\n[Other]\nport = 1") = false ∧
    anyServerTarget {} none (rsLines "[General]\nport = 1") = false ∧
    update_config_values "# comment\n[Other]\nport = 1" "1.2.3.4" 80 "pw" =
      .error "No matching configuration keys found to update" ∧
    update_server_config_values "[General]\nport = 1" {} =
      .error "No matching configuration keys found to update" :=
  ⟨by decide, by decide,
   C5_no_op_update_is_an_error "# comment\n[Other]\nport = 1" "1.2.3.4" "pw" 80
     "[General]\nport = 1" {} (by decide) (by decide)⟩

/-- C10: both config-file commands are atomic on error: whenever the command
returns an error (file missing or the in-memory update failed), the on-disk
file state is exactly what it was before the call. -/
theorem C10_config_writes_atomic_on_error (path : String) (file : Option String)
    (ip pw : String) (port : Nat) (patch : ServerPatch) :
    (∀ e, (set_tes3mp_client_config path file ip port pw).2 = .error e →
      (set_tes3mp_client_config path file ip port pw).1 = file) ∧
    (∀ e, (set_tes3mp_server_config path file patch).2 = .error e →
      (set_tes3mp_server_config path file patch).1 = file) := by
  constructor
  · intro e he
    cases file with
    | none => rfl
    | some content =>
      simp only [set_tes3mp_client_config] at he ⊢
      cases hu : update_config_values content ip port pw with
      | error e2 => simp [hu]
      | ok u => rw [hu] at he; cases he
  · intro e he
    cases file with
    | none => rfl
    | some content =>
      simp only [set_tes3mp_server_config] at he ⊢
      cases hu : update_server_config_values content patch with
      | error e2 => simp [hu]
      | ok u => rw [hu] at he; cases he

/-- C10 witness: a missing file and a no-op update both leave the file state
untouched. -/
theorem C10_config_writes_atomic_on_error_witness :
    (set_tes3mp_client_config "cfg" none "1.2.3.4" 80 "pw").1 = none ∧
    (set_tes3mp_client_config "cfg" (some "# nothing") "1.2.3.4" 80 "pw").1 =
      some "# nothing" :=
  ⟨(C10_config_writes_atomic_on_error "cfg" none "1.2.3.4" "pw" 80 {}).1
     "TES3MP client config file not found at: cfg" rfl,
   (C10_config_writes_atomic_on_error "cfg" (some "# nothing") "1.2.3.4" "pw" 80
     {}).1 "No matching configuration keys found to update" rfl⟩

/-! ### Installer folder location -/

theorem findFolderLoop_found (ep : String) (entries : List DirEntry) :
    ∀ (acc : List String) (e : DirEntry),
    entries.find? (fun d => d.isDir && tes3mpNameMatch d.name) = some e →
    findFolderLoop ep entries acc = .ok (pathJoin ep e.name) := by
  induction entries with
  | nil => intro acc e h; cases h
  | cons d rest ih =>
    intro acc e h
    by_cases hp : (d.isDir && tes3mpNameMatch d.name) = true
    · simp only [List.find?, hp] at h
      cases h
      rw [Bool.and_eq_true] at hp
      obtain ⟨hdir, hmatch⟩ := hp
      simp [findFolderLoop, hdir, hmatch]
    · have hp' : (d.isDir && tes3mpNameMatch d.name) = false := by
        simpa using hp
      simp only [List.find?, hp'] at h
      rw [findFolderLoop]
      cases hdir : d.isDir with
      | true =>
        have hm : tes3mpNameMatch d.name = false := by
          by_cases hm : tes3mpNameMatch d.name = true
          · exact absurd (by rw [hdir, hm]; rfl) hp
          · simpa using hm
        simp only [if_true, hm, Bool.false_eq_true, if_false]
        exact ih _ e h
      | false =>
        simp only [Bool.false_eq_true, if_false]
        exact ih _ e h

theorem findFolderLoop_none (ep : String) (entries : List DirEntry) :
    ∀ (acc : List String),
    (∀ e ∈ entries, e.isDir = true → tes3mpNameMatch e.name = false) →
    findFolderLoop ep entries acc =
      .error ("No TES3MP folder found in: " ++ ep ++ ". Available folders: " ++
        debugStrList (acc ++ (entries.filter (fun e => e.isDir)).map
          (fun e => e.name))) := by
  induction entries with
  | nil => intro acc _; simp [findFolderLoop]
  | cons d rest ih =>
    intro acc h
    rw [findFolderLoop]
    cases hdir : d.isDir with
    | true =>
      have hm : tes3mpNameMatch d.name = false := h d (by simp) hdir
      simp only [if_true, hm, Bool.false_eq_true, if_false]
      rw [ih _ (fun e he hd => h e (by simp [he]) hd)]
      simp [hdir, List.filter_cons, List.append_assoc]
    | false =>
      simp only [Bool.false_eq_true, if_false]
      rw [ih _ (fun e he hd => h e (by simp [he]) hd)]
      simp [hdir, List.filter_cons]

/-- C6: the payload locator (1) returns the extraction root without scanning
any subdirectory when `tes3mp.exe` is present there — the result does not
depend on the listing at all; (2) otherwise returns the first immediate
subdirectory whose name starts with `tes3mp` case-insensitively; (3) and
when no subdirectory matches, fails with an error listing every subfolder
name it examined, in order. -/
theorem C6_payload_locator (ep : String) (entries : List DirEntry) :
    (locate_tes3mp_folder ep true entries = .ok ep) ∧
    (∀ e : DirEntry,
      entries.find? (fun d => d.isDir && tes3mpNameMatch d.name) = some e →
      locate_tes3mp_folder ep false entries = .ok (pathJoin ep e.name)) ∧
    ((∀ e ∈ entries, e.isDir = true → tes3mpNameMatch e.name = false) →
      locate_tes3mp_folder ep false entries =
        .error ("No TES3MP folder found in: " ++ ep ++ ". Available folders: " ++
          debugStrList ((entries.filter (fun e => e.isDir)).map
            (fun e => e.name)))) := by
  refine ⟨rfl, ?_, ?_⟩
  · intro e h
    exact findFolderLoop_found ep entries [] e h
  · intro h
    have := findFolderLoop_none ep entries [] h
    simpa using this

/-- C6 witness: a listing with one stray file, one non-matching folder and
the release folder; plus the no-match error case. -/
theorem C6_payload_locator_witness :
    locate_tes3mp_folder "C:/tmp/tes3mp_extracted" true
      [⟨"docs", true⟩] = .ok "C:/tmp/tes3mp_extracted" ∧
    locate_tes3mp_folder "C:/tmp/tes3mp_extracted" false
      [⟨"readme.txt", false⟩, ⟨"docs", true⟩,
       ⟨"TES3MP.Win64.release.0.8.1", true⟩] =
      .ok "C:/tmp/tes3mp_extracted/TES3MP.Win64.release.0.8.1" ∧
    locate_tes3mp_folder "C:/tmp/tes3mp_extracted" false
      [⟨"readme.txt", false⟩, ⟨"docs", true⟩, ⟨"misc", true⟩] =
      .error ("No TES3MP folder found in: C:/tmp/tes3mp_extracted. Available folders: [\"docs\", \"misc\"]") :=
  ⟨(C6_payload_locator "C:/tmp/tes3mp_extracted" [⟨"docs", true⟩]).1,
   by
    have h := (C6_payload_locator "C:/tmp/tes3mp_extracted"
      [⟨"readme.txt", false⟩, ⟨"docs", true⟩,
       ⟨"TES3MP.Win64.release.0.8.1", true⟩]).2.1
      ⟨"TES3MP.Win64.release.0.8.1", true⟩ (by decide)
    exact h,
   by
    have h := (C6_payload_locator "C:/tmp/tes3mp_extracted"
      [⟨"readme.txt", false⟩, ⟨"docs", true⟩, ⟨"misc", true⟩]).2.2 (by decide)
    rw [h]
    rfl⟩

/-- C7: the installer's config-upsert preserves any already-set operating
mode (defaulting to Player only when it was absent), and the mode switch
rewrites only the mode field, leaving the install path, version and
last-updated timestamp of an existing config unchanged. -/
theorem C7_config_store_preserves_unrelated_fields (c : NerevarConfig)
    (p v t now : String) (m : Mode) :
    (∀ m0 : Mode, c.mode = some m0 →
      (upsert_nerevar_config (some c) p v t).mode = some m0) ∧
    (c.mode = none →
      (upsert_nerevar_config (some c) p v t).mode = some Mode.player) ∧
    set_mode_config (some c) m now = { c with mode := some m } := by
  refine ⟨?_, ?_, rfl⟩
  · intro m0 hm
    simp [upsert_nerevar_config, hm]
  · intro hm
    simp [upsert_nerevar_config, hm]

/-- C7 witness: an existing config in server mode keeps server mode across
an install upsert, and a mode switch leaves its other fields intact. -/
theorem C7_config_store_preserves_unrelated_fields_witness :
    (upsert_nerevar_config (some sampleConfig) "D:/new/TES3MP" "0.9.0"
      "2025-06-01T00:00:00+00:00").mode = some Mode.server ∧
    set_mode_config (some sampleConfig) Mode.player "now" =
      { sampleConfig with mode := some Mode.player } :=
  ⟨(C7_config_store_preserves_unrelated_fields sampleConfig "D:/new/TES3MP"
      "0.9.0" "2025-06-01T00:00:00+00:00" "now" Mode.player).1 Mode.server rfl,
   (C7_config_store_preserves_unrelated_fields sampleConfig "D:/new/TES3MP"
      "0.9.0" "2025-06-01T00:00:00+00:00" "now" Mode.player).2.2⟩

/-- C8: each of the five launchable tools (game client, game launcher,
configuration wizard, server browser, dedicated server) emits exactly one
start event carrying the process id strictly before exactly one terminal
event carrying the same process id, whose success flag is true exactly when
the exit code is zero, and which carries the exit code whenever the process
could be waited on. -/
theorem C8_launch_event_pairing :
    launchPairing run_tes3mp tes3mpSpec ∧
    launchPairing run_openmw_launcher openmwLauncherSpec ∧
    launchPairing run_openmw_wizard openmwWizardSpec ∧
    launchPairing run_tes3mp_browser tes3mpBrowserSpec ∧
    launchPairing run_tes3mp_server tes3mpServerSpec := by
  refine ⟨?_, ?_, ?_, ?_, ?_⟩ <;>
  · intro cfg pid wait
    refine ⟨rfl, ?_, ?_, ?_⟩
    · cases wait <;> rfl
    · cases wait with
      | ok st => simp [exitPayload]
      | error e => simp [exitPayload]
    · intro st hst
      subst hst
      rfl

/-- C8 witness: a successful TES3MP launch with exit code zero yields the
paired start and terminal events. -/
theorem C8_launch_event_pairing_witness :
    (run_tes3mp (some sampleConfig) true (.ok 42) (.ok (some 0))).2 =
      [AppEvent.started "tes3mp-started" 42,
       AppEvent.exited "tes3mp-exited" (exitPayload tes3mpSpec 42 (.ok (some 0)))] ∧
    (exitPayload tes3mpSpec 42 (.ok (some 0))).exit_code = some 0 :=
  ⟨(C8_launch_event_pairing.1 sampleConfig 42 (.ok (some 0))).1,
   (C8_launch_event_pairing.1 sampleConfig 42 (.ok (some 0))).2.2.2 (some 0) rfl⟩

end Nerevar
